import Mathlib

/-!
Two-triangle rendering demos (`hw1/triangles.cpp`, `hw2/triangles.cpp`)

Both programs are straight-line glue code around GLFW, GLEW, OpenGL, libm and GLM.
They are embedded as functions from an environment (the values the external
calls return) to the list of external calls performed, each recorded with its
arguments and its result, together with the value returned by `main`.

* The `do ... while` render loop may run forever, so `main` takes a bound on the
  number of loop iterations; when the bound is reached the exit code is `none`
  and the trace is the prefix performed so far.
* Floating-point numbers are read as exact numbers: `hw1` uses `ℚ` for its float
  literals, `hw2` is written over an arbitrary field `S`, with `cos`, `sin` and
  the GLM matrix functions supplied by the environment.
* `glewExperimental = true` is a write to a global variable, not a call, and is
  not recorded.
-/

namespace Triangles

/-- Named constants of the GLFW and OpenGL headers that the programs pass as arguments. -/
inductive Const
  | GLFW_SAMPLES
  | GLFW_CONTEXT_VERSION_MAJOR
  | GLFW_CONTEXT_VERSION_MINOR
  | GLFW_OPENGL_FORWARD_COMPAT
  | GLFW_OPENGL_PROFILE
  | GLFW_OPENGL_CORE_PROFILE
  | GLFW_STICKY_KEYS
  | GLFW_KEY_ESCAPE
  | GL_TRUE
  | GL_FALSE
  | GL_BLEND
  | GL_SRC_ALPHA
  | GL_ONE_MINUS_SRC_ALPHA
  | GL_ARRAY_BUFFER
  | GL_STATIC_DRAW
  | GL_COLOR_BUFFER_BIT
  | GL_FLOAT
  | GL_TRIANGLES
  deriving DecidableEq, Repr

/-- An `int` argument that is written either as a number or as a named constant. -/
inductive Arg
  | num (n : Int)
  | sym (c : Const)
  deriving DecidableEq, Repr

/-- Value of `GLFW_PRESS` in `glfw3.h`. -/
def GLFW_PRESS : Int := 1

/-- Value of `GLEW_OK` in `GL/glew.h`. -/
def GLEW_OK : Nat := 0

/-- The null pointer, as a window handle. -/
def NULL : Nat := 0

/-- Size in bytes of a `GLfloat`. -/
def sizeofGLfloat : Nat := 4

/-- An external call together with its arguments and, where the program uses it, its result
(`ret` for a returned value, `out` for a value written through a pointer argument).
`S` is the type of scalars and `M` the type of 4x4 matrices. -/
inductive Call (S M : Type)
  | glfwInit (ret : Int)
  | fprintf_stderr (msg : String)
  | getchar
  | glfwWindowHint (hint : Const) (value : Arg)
  | glfwCreateWindow (width height : Int) (title : String) (ret : Nat)
  | glfwTerminate
  | glfwMakeContextCurrent (window : Nat)
  | glewInit (ret : Nat)
  | glfwSetInputMode (window : Nat) (mode value : Const)
  | glClearColor (red green blue alpha : S)
  | glEnable (cap : Const)
  | glBlendFunc (sfactor dfactor : Const)
  | glGenVertexArrays (n : Nat) (out : Nat)
  | glBindVertexArray (array : Nat)
  | LoadShaders (vertex_file_path fragment_file_path : String) (ret : Nat)
  | glGetUniformLocation (program : Nat) (name : String) (ret : Int)
  | glGenBuffers (n : Nat) (out : Nat)
  | glBindBuffer (target : Const) (buffer : Nat)
  | glBufferData (target : Const) (size : Nat) (data : List S) (usage : Const)
  | Sleep (dwMilliseconds : Nat)
  | glClear (mask : Const)
  | glUseProgram (program : Nat)
  | glEnableVertexAttribArray (index : Nat)
  | glVertexAttribPointer (index : Nat) (size : Nat) (type normalized : Const)
      (stride : Nat) (pointer : Nat)
  | glUniformMatrix4fv (location : Int) (count : Nat) (transpose : Const) (value : M)
  | glDrawArrays (mode : Const) (first count : Nat)
  | glDisableVertexAttribArray (index : Nat)
  | glfwSwapBuffers (window : Nat)
  | glfwPollEvents
  | glfwGetKey (window : Nat) (key : Const) (ret : Int)
  | glfwWindowShouldClose (window : Nat) (ret : Int)
  | glDeleteBuffers (n : Nat) (buffer : Nat)
  | glDeleteVertexArrays (n : Nat) (array : Nat)
  | glDeleteProgram (program : Nat)
  deriving DecidableEq, Repr

/-- The values returned by the external calls whose result the programs use.
`glfwGetKey k` and `glfwWindowShouldClose k` are the values returned in the
loop condition evaluated after the `k`-th execution of the loop body (`k = 0, 1, ...`). -/
structure Env where
  glfwInit : Int
  glfwCreateWindow : Nat
  glewInit : Nat
  glGenVertexArrays : Nat
  LoadShaders0 : Nat
  LoadShaders1 : Nat
  glGetUniformLocation0 : Int
  glGetUniformLocation1 : Int
  glGenBuffers : Nat
  glfwGetKey : Nat → Int
  glfwWindowShouldClose : Nat → Int

/-- What a bounded run of `main` did: the external calls in order, and the value
returned by `main` (`none` when the iteration bound was reached inside the loop). -/
structure Run (S M : Type) where
  trace : List (Call S M)
  exit : Option Int

namespace hw1

/-- Calls of `hw1`: rational scalars, and no matrix is ever passed. -/
abbrev C := Call ℚ Empty

/-- The array `g_vertex_buffer_data` of `hw1/triangles.cpp`. -/
def g_vertex_buffer_data : List ℚ :=
  [-0.5,  0.5, 0.0,
    0.5,  0.2, 0.0,
    0.1, -0.5, 0.0,
   -0.7, -0.6, 0.0,
    0.1,  0.1, 0.0,
    0.4, -0.7, 0.0]

/-- Body of the `for` loop of `hw1` for index `i`. -/
def drawTriangle (programIDs : List Nat) (vertexbuffer : Nat) (i : Nat) : List C :=
  [ .glUseProgram (programIDs.getD i 0),
    .glEnableVertexAttribArray 0,
    .glBindBuffer .GL_ARRAY_BUFFER vertexbuffer,
    .glVertexAttribPointer 0 3 .GL_FLOAT .GL_FALSE 0 0,
    .glDrawArrays .GL_TRIANGLES (i * 3) 3,
    .glDisableVertexAttribArray 0 ]

/-- Body of the `do ... while` loop of `hw1`, up to and including `glfwPollEvents`. -/
def frame (window : Nat) (programIDs : List Nat) (vertexbuffer : Nat) : List C :=
  [ .glClear .GL_COLOR_BUFFER_BIT ]
    ++ (List.range 2).flatMap (drawTriangle programIDs vertexbuffer)
    ++ [ .glfwSwapBuffers window, .glfwPollEvents ]

/-- The `do ... while` loop of `hw1`: `k` counts the iterations done so far, the first
argument bounds the iterations still allowed. Returns the calls made and whether the
loop was left. The condition evaluates `glfwWindowShouldClose` only when the key test
held, as `&&` does. -/
def renderLoop (env : Env) (window : Nat) (programIDs : List Nat) (vertexbuffer : Nat) :
    Nat → Nat → List C × Bool
  | 0, _ => ([], false)
  | fuel + 1, k =>
    let body := frame window programIDs vertexbuffer
    let key := env.glfwGetKey k
    if key ≠ GLFW_PRESS then
      let close := env.glfwWindowShouldClose k
      if close = 0 then
        let rest := renderLoop env window programIDs vertexbuffer fuel (k + 1)
        (body ++ [.glfwGetKey window .GLFW_KEY_ESCAPE key, .glfwWindowShouldClose window close]
          ++ rest.1, rest.2)
      else
        (body ++ [.glfwGetKey window .GLFW_KEY_ESCAPE key, .glfwWindowShouldClose window close],
          true)
    else
      (body ++ [.glfwGetKey window .GLFW_KEY_ESCAPE key], true)

/-- Lines 28-35 of `hw1/triangles.cpp`: the window hints and the window creation. -/
def openWindow (env : Env) : List C :=
  [ .glfwWindowHint .GLFW_SAMPLES (.num 4),
    .glfwWindowHint .GLFW_CONTEXT_VERSION_MAJOR (.num 3),
    .glfwWindowHint .GLFW_CONTEXT_VERSION_MINOR (.num 3),
    .glfwWindowHint .GLFW_OPENGL_FORWARD_COMPAT (.sym .GL_TRUE),
    .glfwWindowHint .GLFW_OPENGL_PROFILE (.sym .GLFW_OPENGL_CORE_PROFILE),
    .glfwCreateWindow 1024 512 "Red and green triangles" env.glfwCreateWindow ]

/-- Lines 54-86 of `hw1/triangles.cpp`: everything between the last check and the loop. -/
def setup (env : Env) (window : Nat) : List C :=
  [ .glfwSetInputMode window .GLFW_STICKY_KEYS .GL_TRUE,
    .glClearColor 0.0 0.0 0.4 0.0,
    .glEnable .GL_BLEND,
    .glBlendFunc .GL_SRC_ALPHA .GL_ONE_MINUS_SRC_ALPHA,
    .glGenVertexArrays 1 env.glGenVertexArrays,
    .glBindVertexArray env.glGenVertexArrays,
    .LoadShaders "VertexShader.vertexshader" "TriangleFragmentShader1.fragmentshader"
      env.LoadShaders0,
    .LoadShaders "VertexShader.vertexshader" "TriangleFragmentShader2.fragmentshader"
      env.LoadShaders1,
    .glGenBuffers 1 env.glGenBuffers,
    .glBindBuffer .GL_ARRAY_BUFFER env.glGenBuffers,
    .glBufferData .GL_ARRAY_BUFFER (g_vertex_buffer_data.length * sizeofGLfloat)
      g_vertex_buffer_data .GL_STATIC_DRAW ]

/-- Lines 119-125 of `hw1/triangles.cpp`: the calls after the loop. -/
def cleanup (VertexArrayID : Nat) (programIDs : List Nat) (vertexbuffer : Nat) : List C :=
  [ .glDeleteBuffers 1 vertexbuffer,
    .glDeleteVertexArrays 1 VertexArrayID,
    .glDeleteProgram (programIDs.getD 0 0),
    .glDeleteProgram (programIDs.getD 1 0),
    .glfwTerminate ]

/-- The function `main` of `hw1/triangles.cpp`, with at most `fuel` loop iterations. -/
def main (env : Env) (fuel : Nat) : Run ℚ Empty :=
  if env.glfwInit = 0 then
    ⟨[ .glfwInit env.glfwInit,
       .fprintf_stderr "Failed to initialize GLFW\n",
       .getchar ], some (-1)⟩
  else
    let window := env.glfwCreateWindow
    if window = NULL then
      ⟨[ .glfwInit env.glfwInit ] ++ openWindow env ++
       [ .fprintf_stderr "Failed to open GLFW window. If you have an Intel GPU, they are not 3.3 compatible. Try the 2.1 version of the tutorials.\n",
         .getchar,
         .glfwTerminate ], some (-1)⟩
    else if env.glewInit ≠ GLEW_OK then
      ⟨[ .glfwInit env.glfwInit ] ++ openWindow env ++
       [ .glfwMakeContextCurrent window,
         .glewInit env.glewInit,
         .fprintf_stderr "Failed to initialize GLEW\n",
         .getchar,
         .glfwTerminate ], some (-1)⟩
    else
      let VertexArrayID := env.glGenVertexArrays
      let programIDs := [env.LoadShaders0, env.LoadShaders1]
      let vertexbuffer := env.glGenBuffers
      let start : List C :=
        [ .glfwInit env.glfwInit ] ++ openWindow env ++
        [ .glfwMakeContextCurrent window, .glewInit env.glewInit ] ++ setup env window
      let loop := renderLoop env window programIDs vertexbuffer fuel 0
      if loop.2 then
        ⟨start ++ loop.1 ++ cleanup VertexArrayID programIDs vertexbuffer, some 0⟩
      else
        ⟨start ++ loop.1, none⟩

end hw1

/-- A vector of three scalars (`glm::vec3`). -/
structure Vec3 (S : Type) where
  x : S
  y : S
  z : S
  deriving DecidableEq, Repr

/-- The pure library functions `hw2` computes with: `cos` and `sin` of `math.h`, and
`glm::lookAt`, `glm::perspective`, the diagonal constructor `glm::mat4(s)` and the matrix
product of GLM. -/
structure Lib (S M : Type) where
  cos : S → S
  sin : S → S
  lookAt : Vec3 S → Vec3 S → Vec3 S → M
  perspective : S → S → S → S → M
  mat4 : S → M
  mul : M → M → M

/-- Conversion of a `GLint` to `GLuint` (32 bits). -/
def toGLuint (x : Int) : Nat := (x % 2 ^ 32).toNat

/-- Conversion of a `GLuint` to `GLint` (32 bits, two's complement). -/
def toGLint (n : Nat) : Int :=
  if n % 2 ^ 32 < 2 ^ 31 then (n % 2 ^ 32 : Nat) else (n % 2 ^ 32 : Nat) - 2 ^ 32

namespace hw2

variable {S M : Type} [Field S]

/-- The array `g_vertex_buffer_data` of `hw2/triangles.cpp`. -/
def g_vertex_buffer_data : List S :=
  [-0.5,  0.5, 0.0,
    0.5,  0.2, 0.0,
    0.1, -0.5, 0.0,
   -0.7, -0.6, 0.0,
    0.1,  0.1, 0.0,
    0.4, -0.7, 0.0]

/-- The variable `step` of `hw2/triangles.cpp`. -/
def step : S := 0.02

/-- The first argument of `glm::lookAt` in `hw2`, the position of the camera:
`glm::vec3( cos( camera_angle ), 1, sin( camera_angle ) )`. -/
def cameraEye (cos sin : S → S) (camera_angle : S) : Vec3 S :=
  ⟨cos camera_angle, 1, sin camera_angle⟩

/-- The matrix `MVP` computed in the loop body of `hw2` (`*` associates to the left). -/
def MVP (lib : Lib S M) (Projection Model : M) (camera_angle : S) : M :=
  let View := lib.lookAt (cameraEye lib.cos lib.sin camera_angle) ⟨0, 0, 0⟩ ⟨0, 1, 0⟩
  lib.mul (lib.mul Projection View) Model

/-- Body of the `for` loop of `hw2` for index `i`. -/
def drawTriangle (programIDs MatrixIDs : List Nat) (mvp : M) (i : Nat) : List (Call S M) :=
  [ .glUseProgram (programIDs.getD i 0),
    .glUniformMatrix4fv (toGLint (MatrixIDs.getD i 0)) 1 .GL_FALSE mvp,
    .glDrawArrays .GL_TRIANGLES (i * 3) 3 ]

/-- Body of the `do ... while` loop of `hw2`, up to and including `glfwPollEvents`, as a
function of the matrix `MVP` of the iteration. -/
def frameWith (window : Nat) (programIDs MatrixIDs : List Nat) (vertexbuffer : Nat) (mvp : M) :
    List (Call S M) :=
  [ .Sleep 15,
    .glClear .GL_COLOR_BUFFER_BIT,
    .glEnableVertexAttribArray 0,
    .glBindBuffer .GL_ARRAY_BUFFER vertexbuffer,
    .glVertexAttribPointer 0 3 .GL_FLOAT .GL_FALSE 0 0 ]
    ++ (List.range 2).flatMap (drawTriangle programIDs MatrixIDs mvp)
    ++ [ .glDisableVertexAttribArray 0, .glfwSwapBuffers window, .glfwPollEvents ]

/-- Body of the `do ... while` loop of `hw2` for the current value of `camera_angle`. -/
def frame (lib : Lib S M) (window : Nat) (programIDs MatrixIDs : List Nat) (vertexbuffer : Nat)
    (Projection Model : M) (camera_angle : S) : List (Call S M) :=
  frameWith window programIDs MatrixIDs vertexbuffer (MVP lib Projection Model camera_angle)

/-- The `do ... while` loop of `hw2`: `k` counts the iterations done so far, the first
argument bounds the iterations still allowed, `camera_angle` is the loop variable. -/
def renderLoop (lib : Lib S M) (env : Env) (window : Nat) (programIDs MatrixIDs : List Nat)
    (vertexbuffer : Nat) (Projection Model : M) : Nat → Nat → S → List (Call S M) × Bool
  | 0, _, _ => ([], false)
  | fuel + 1, k, camera_angle =>
    let body := frame lib window programIDs MatrixIDs vertexbuffer Projection Model camera_angle
    let camera_angle := camera_angle + step
    let key := env.glfwGetKey k
    if key ≠ GLFW_PRESS then
      let close := env.glfwWindowShouldClose k
      if close = 0 then
        let rest := renderLoop lib env window programIDs MatrixIDs vertexbuffer Projection Model
          fuel (k + 1) camera_angle
        (body ++ [.glfwGetKey window .GLFW_KEY_ESCAPE key, .glfwWindowShouldClose window close]
          ++ rest.1, rest.2)
      else
        (body ++ [.glfwGetKey window .GLFW_KEY_ESCAPE key, .glfwWindowShouldClose window close],
          true)
    else
      (body ++ [.glfwGetKey window .GLFW_KEY_ESCAPE key], true)

/-- Lines 30-37 of `hw2/triangles.cpp`: the window hints and the window creation. -/
def openWindow (env : Env) : List (Call S M) :=
  [ .glfwWindowHint .GLFW_SAMPLES (.num 4),
    .glfwWindowHint .GLFW_CONTEXT_VERSION_MAJOR (.num 3),
    .glfwWindowHint .GLFW_CONTEXT_VERSION_MINOR (.num 3),
    .glfwWindowHint .GLFW_OPENGL_FORWARD_COMPAT (.sym .GL_TRUE),
    .glfwWindowHint .GLFW_OPENGL_PROFILE (.sym .GLFW_OPENGL_CORE_PROFILE),
    .glfwCreateWindow 1024 512 "Two rotating triangles" env.glfwCreateWindow ]

/-- Lines 56-101 of `hw2/triangles.cpp`: the calls between the last check and the loop. -/
def setup (env : Env) (window : Nat) : List (Call S M) :=
  [ .glfwSetInputMode window .GLFW_STICKY_KEYS .GL_TRUE,
    .glClearColor 0.0 0.0 0.4 0.0,
    .glEnable .GL_BLEND,
    .glBlendFunc .GL_SRC_ALPHA .GL_ONE_MINUS_SRC_ALPHA,
    .glGenVertexArrays 1 env.glGenVertexArrays,
    .glBindVertexArray env.glGenVertexArrays,
    .LoadShaders "SimpleTransform.vertexshader" "TriangleFragmentShader1.fragmentshader"
      env.LoadShaders0,
    .LoadShaders "SimpleTransform.vertexshader" "TriangleFragmentShader2.fragmentshader"
      env.LoadShaders1,
    .glGetUniformLocation env.LoadShaders0 "MVP" env.glGetUniformLocation0,
    .glGetUniformLocation env.LoadShaders1 "MVP" env.glGetUniformLocation1,
    .glGenBuffers 1 env.glGenBuffers,
    .glBindBuffer .GL_ARRAY_BUFFER env.glGenBuffers,
    .glBufferData .GL_ARRAY_BUFFER
      ((g_vertex_buffer_data : List S).length * sizeofGLfloat) g_vertex_buffer_data
      .GL_STATIC_DRAW ]

/-- Lines 155-161 of `hw2/triangles.cpp`: the calls after the loop. -/
def cleanup (VertexArrayID : Nat) (programIDs : List Nat) (vertexbuffer : Nat) :
    List (Call S M) :=
  [ .glDeleteBuffers 1 vertexbuffer,
    .glDeleteProgram (programIDs.getD 0 0),
    .glDeleteProgram (programIDs.getD 1 0),
    .glDeleteVertexArrays 1 VertexArrayID,
    .glfwTerminate ]

/-- The function `main` of `hw2/triangles.cpp`, with at most `fuel` loop iterations. -/
def main (lib : Lib S M) (env : Env) (fuel : Nat) : Run S M :=
  if env.glfwInit = 0 then
    ⟨[ .glfwInit env.glfwInit,
       .fprintf_stderr "Failed to initialize GLFW\n",
       .getchar ], some (-1)⟩
  else
    let window := env.glfwCreateWindow
    if window = NULL then
      ⟨[ .glfwInit env.glfwInit ] ++ openWindow env ++
       [ .fprintf_stderr "Failed to open GLFW window. If you have an Intel GPU, they are not 3.3 compatible. Try the 2.1 version of the tutorials.\n",
         .getchar,
         .glfwTerminate ], some (-1)⟩
    else if env.glewInit ≠ GLEW_OK then
      ⟨[ .glfwInit env.glfwInit ] ++ openWindow env ++
       [ .glfwMakeContextCurrent window,
         .glewInit env.glewInit,
         .fprintf_stderr "Failed to initialize GLEW\n",
         .getchar,
         .glfwTerminate ], some (-1)⟩
    else
      let VertexArrayID := env.glGenVertexArrays
      let programIDs := [env.LoadShaders0, env.LoadShaders1]
      let MatrixIDs := [toGLuint env.glGetUniformLocation0, toGLuint env.glGetUniformLocation1]
      let Projection := lib.perspective 45.05 (2.0 / 1.0) 0.1 100.0
      let Model := lib.mat4 1.0
      let vertexbuffer := env.glGenBuffers
      let start : List (Call S M) :=
        [ .glfwInit env.glfwInit ] ++ openWindow env ++
        [ .glfwMakeContextCurrent window, .glewInit env.glewInit ] ++ setup env window
      let camera_angle : S := 0
      let loop := renderLoop lib env window programIDs MatrixIDs vertexbuffer Projection Model
        fuel 0 camera_angle
      if loop.2 then
        ⟨start ++ loop.1 ++ cleanup VertexArrayID programIDs vertexbuffer, some 0⟩
      else
        ⟨start ++ loop.1, none⟩

end hw2

/-! ## Observations on traces and environments -/

section Observations

variable {S M : Type}

/-- The call is `glfwSwapBuffers`. -/
def Call.isSwap : Call S M → Bool
  | .glfwSwapBuffers _ => true
  | _ => false

/-- The call is `glClear`. -/
def Call.isClear : Call S M → Bool
  | .glClear _ => true
  | _ => false

/-- The call is `glfwPollEvents`. -/
def Call.isPoll : Call S M → Bool
  | .glfwPollEvents => true
  | _ => false

/-- The call is `glfwTerminate`. -/
def Call.isTerminate : Call S M → Bool
  | .glfwTerminate => true
  | _ => false

/-- The call prints a message to `stderr`. -/
def Call.isStderr : Call S M → Bool
  | .fprintf_stderr _ => true
  | _ => false

/-- Number of frames presented in a trace: one per `glfwSwapBuffers`. -/
def framesRendered (t : List (Call S M)) : Nat := t.countP Call.isSwap

/-- The loop condition after the `k`-th execution of the body:
`glfwGetKey(...) != GLFW_PRESS && glfwWindowShouldClose(window) == 0`. -/
def Env.continues (env : Env) (k : Nat) : Bool :=
  decide (env.glfwGetKey k ≠ GLFW_PRESS) && decide (env.glfwWindowShouldClose k = 0)

/-- The three initialization checks all pass. -/
def Env.initOk (env : Env) : Bool :=
  decide (env.glfwInit ≠ 0) && decide (env.glfwCreateWindow ≠ NULL) &&
    decide (env.glewInit = GLEW_OK)

/-- Some initialization check that is reached fails: `glfwInit` fails, or it passes and
`glfwCreateWindow` returns `NULL`, or both pass and `glewInit` does not return `GLEW_OK`. -/
def Env.reachedCheckFails (env : Env) : Prop :=
  env.glfwInit = 0 ∨
  (env.glfwInit ≠ 0 ∧ env.glfwCreateWindow = NULL) ∨
  (env.glfwInit ≠ 0 ∧ env.glfwCreateWindow ≠ NULL ∧ env.glewInit ≠ GLEW_OK)

/-- Frame `n` is the first one after which escape is pressed or close is requested. -/
def Env.firstExit (env : Env) (n : Nat) : Prop :=
  (∀ j, j < n → env.continues j = true) ∧ env.continues n = false

/-! ## Proof-side descriptions of the loop and of a run -/

/-- Calls made by the loop condition evaluated after the `k`-th execution of the body. -/
def loopTest (env : Env) (window : Nat) (k : Nat) : List (Call S M) :=
  if env.glfwGetKey k ≠ GLFW_PRESS then
    [.glfwGetKey window .GLFW_KEY_ESCAPE (env.glfwGetKey k),
     .glfwWindowShouldClose window (env.glfwWindowShouldClose k)]
  else
    [.glfwGetKey window .GLFW_KEY_ESCAPE (env.glfwGetKey k)]

/-- Number of iterations a `do ... while` loop with condition `env.continues` performs when it
starts with iteration `k` and at most `fuel` iterations are allowed. -/
def iterations (env : Env) : Nat → Nat → Nat
  | 0, _ => 0
  | fuel + 1, k => if env.continues k then iterations env fuel (k + 1) + 1 else 1

/-- Whether that loop is left within `fuel` iterations. -/
def leaves (env : Env) : Nat → Nat → Bool
  | 0, _ => false
  | fuel + 1, k => if env.continues k then leaves env fuel (k + 1) else true

/-- Calls of `hw1` from `glfwInit` up to the loop, when the three checks pass. -/
def hw1.prologue (env : Env) : List hw1.C :=
  [ .glfwInit env.glfwInit ] ++ hw1.openWindow env ++
  [ .glfwMakeContextCurrent env.glfwCreateWindow, .glewInit env.glewInit ] ++
  hw1.setup env env.glfwCreateWindow

/-- Calls of the first `m` iterations of the loop of `hw1`, loop conditions included. -/
def hw1.loopCalls (env : Env) (m : Nat) : List hw1.C :=
  (List.range m).flatMap (fun j =>
    hw1.frame env.glfwCreateWindow [env.LoadShaders0, env.LoadShaders1] env.glGenBuffers
      ++ loopTest env env.glfwCreateWindow j)

/-- Calls of `hw1` after the loop. -/
def hw1.epilogue (env : Env) : List hw1.C :=
  hw1.cleanup env.glGenVertexArrays [env.LoadShaders0, env.LoadShaders1] env.glGenBuffers

/-- The angle of the camera in frame `k` as the claim states it: `a_0 = 0` and
`a_(k+1) = a_k + 0.02`. -/
def hw2.specAngle [Field S] : Nat → S
  | 0 => 0
  | k + 1 => hw2.specAngle k + 0.02

/-- Calls of `hw2` from `glfwInit` up to the loop, when the three checks pass. -/
def hw2.prologue {S M : Type} [Field S] (env : Env) : List (Call S M) :=
  [ .glfwInit env.glfwInit ] ++ hw2.openWindow env ++
  [ .glfwMakeContextCurrent env.glfwCreateWindow, .glewInit env.glewInit ] ++
  hw2.setup env env.glfwCreateWindow

/-- The matrix `MVP` of frame `k` as the claim states it:
`Projection * lookAt(eye_k, (0,0,0), (0,1,0)) * Identity` with
`eye_k = (cos a_k, 1, sin a_k)`, where `Projection` is
`glm::perspective(45.05, 2.0 / 1.0, 0.1, 100.0)` and `Identity` is `glm::mat4(1.0)`. -/
def hw2.specMVP [Field S] (lib : Lib S M) (k : Nat) : M :=
  lib.mul
    (lib.mul (lib.perspective 45.05 (2.0 / 1.0) 0.1 100.0)
      (lib.lookAt ⟨lib.cos (hw2.specAngle k), 1, lib.sin (hw2.specAngle k)⟩
        ⟨0, 0, 0⟩ ⟨0, 1, 0⟩))
    (lib.mat4 1.0)

/-- Calls of the first `m` iterations of the loop of `hw2`, loop conditions included. -/
def hw2.loopCalls {S M : Type} [Field S] (lib : Lib S M) (env : Env) (m : Nat) :
    List (Call S M) :=
  (List.range m).flatMap (fun j =>
    hw2.frameWith env.glfwCreateWindow [env.LoadShaders0, env.LoadShaders1]
        [toGLuint env.glGetUniformLocation0, toGLuint env.glGetUniformLocation1]
        env.glGenBuffers (hw2.specMVP lib j)
      ++ loopTest env env.glfwCreateWindow j)

/-- Calls of `hw2` after the loop. -/
def hw2.epilogue {S M : Type} (env : Env) : List (Call S M) :=
  hw2.cleanup env.glGenVertexArrays [env.LoadShaders0, env.LoadShaders1] env.glGenBuffers

/-- Two environments agree on the results of `glfwInit`, `glfwCreateWindow` and `glewInit`
and on the escape-key and window-close inputs of every frame; the other results (handles,
`LoadShaders`, `glGetUniformLocation`) are unconstrained. -/
def Env.sameInputs (env env' : Env) : Prop :=
  env.glfwInit = env'.glfwInit ∧ env.glfwCreateWindow = env'.glfwCreateWindow ∧
  env.glewInit = env'.glewInit ∧ (∀ k, env.glfwGetKey k = env'.glfwGetKey k) ∧
  (∀ k, env.glfwWindowShouldClose k = env'.glfwWindowShouldClose k)

/-! ## Handles created and deleted -/

/-- A GL object named by a handle: a vertex array object, a buffer object or a shader
program. -/
inductive Handle
  | vertexArray (id : Nat)
  | buffer (id : Nat)
  | program (id : Nat)
  deriving DecidableEq, Repr

/-- The handle a call creates, if any. -/
def Call.created : Call S M → Option Handle
  | .glGenVertexArrays _ out => some (.vertexArray out)
  | .glGenBuffers _ out => some (.buffer out)
  | .LoadShaders _ _ ret => some (.program ret)
  | _ => none

/-- The handle a call deletes, if any. -/
def Call.deleted : Call S M → Option Handle
  | .glDeleteVertexArrays _ array => some (.vertexArray array)
  | .glDeleteBuffers _ buffer => some (.buffer buffer)
  | .glDeleteProgram program => some (.program program)
  | _ => none

/-- The handles created in a trace, in order, one entry per creating call. -/
def createdHandles (t : List (Call S M)) : List Handle := t.filterMap Call.created

/-- The handles deleted in a trace, in order, one entry per deleting call. -/
def deletedHandles (t : List (Call S M)) : List Handle := t.filterMap Call.deleted

/-- One step of the bookkeeping of live handles: a creation adds its handle, a deletion
removes one entry of its handle and is an error (`none`) when no such entry is live. -/
def liveStep (live : Option (List Handle)) (c : Call S M) : Option (List Handle) :=
  match live with
  | none => none
  | some l =>
    match c.created, c.deleted with
    | some h, _ => some (h :: l)
    | none, some h => if h ∈ l then some (l.erase h) else none
    | none, none => some l

/-- The handles live after a trace that starts with no handle; `none` when some call deleted
a handle that was not live at that moment (never created, or deleted before). -/
def liveHandles (t : List (Call S M)) : Option (List Handle) := t.foldl liveStep (some [])

/-! ## Order of the calls of a frame -/

/-- Where a trace stands with respect to the frame being rendered: outside any frame, after
`glClear`, after `glfwSwapBuffers`, after `glfwPollEvents`, after the `glfwGetKey` of the loop
condition, after the `glfwWindowShouldClose` of the loop condition. -/
inductive Phase
  | outside
  | cleared
  | swapped
  | polled
  | keyTested
  | closeTested
  deriving DecidableEq, Repr

/-- One step of the order monitor (`none` is a violation). `glClear` starts a frame and is
allowed only outside a frame or after a loop condition; `glDrawArrays` is allowed only between
the clear and the swap; `glfwSwapBuffers` only after the clear; `glfwPollEvents` only directly
after the swap (and once); `glfwGetKey` only after the poll; `glfwWindowShouldClose` only
after that `glfwGetKey`. Other calls do not move the monitor. -/
def orderStep (s : Option Phase) (c : Call S M) : Option Phase :=
  match s with
  | none => none
  | some ph =>
    match c with
    | .glClear _ =>
      if ph = .outside ∨ ph = .keyTested ∨ ph = .closeTested then some .cleared else none
    | .glDrawArrays _ _ _ => if ph = .cleared then some .cleared else none
    | .glfwSwapBuffers _ => if ph = .cleared then some .swapped else none
    | .glfwPollEvents => if ph = .swapped then some .polled else none
    | .glfwGetKey _ _ _ => if ph = .polled then some .keyTested else none
    | .glfwWindowShouldClose _ _ => if ph = .keyTested then some .closeTested else none
    | _ => some ph

/-- The phase reached by a trace that starts outside any frame; `none` when some call came
out of order. -/
def frameOrder (t : List (Call S M)) : Option Phase := t.foldl orderStep (some .outside)

/-- The call is `glDrawArrays`. -/
def Call.isDraw : Call S M → Bool
  | .glDrawArrays _ _ _ => true
  | _ => false

/-- The phases in which no frame is under way: no frame was started, or the loop condition
of the last frame has been evaluated. -/
def Phase.betweenFrames : Phase → Bool
  | .outside => true
  | .keyTested => true
  | .closeTested => true
  | _ => false

/-! ## What the draw calls read -/

/-- A `glUniformMatrix4fv` call with the program in use when it was issued: the matrix
`value` is stored in the uniform at `location` of that program. -/
structure UniformSend (M : Type) where
  program : Option Nat
  location : Int
  count : Nat
  value : M

/-- State of the tracking of uniform sends: the program in use, the sends since the last
`glClear`, and the sends of each frame presented. -/
structure SendState (M : Type) where
  program : Option Nat
  current : List (UniformSend M)
  frames : List (List (UniformSend M))

/-- Effect of one call on the tracking of uniform sends. -/
def sendStep (s : SendState M) (c : Call S M) : SendState M :=
  match c with
  | .glUseProgram program => { s with program := some program }
  | .glClear _ => { s with current := [] }
  | .glUniformMatrix4fv location count _ value =>
    { s with current := s.current ++ [⟨s.program, location, count, value⟩] }
  | .glfwSwapBuffers _ => { s with frames := s.frames ++ [s.current], current := [] }
  | _ => s

/-- The uniform sends of each presented frame of a trace, each with the program in use. -/
def sendsPerFrame (t : List (Call S M)) : List (List (UniformSend M)) :=
  (t.foldl sendStep ⟨none, [], []⟩).frames

/-- The uniform locations obtained in a trace: for each `glGetUniformLocation` call the
program asked, the name of the uniform and the location returned. -/
def locationsObtained (t : List (Call S M)) : List (Nat × String × Int) :=
  t.filterMap fun c =>
    match c with
    | .glGetUniformLocation program name ret => some (program, name, ret)
    | _ => none

/-- The sends of frame `k` of `hw2` as the claim describes them: the matrix of the frame is
sent once with program `programIDs[0]` in use, to the location obtained for that program, and
once with program `programIDs[1]` in use, to the location obtained for that one (each location
after its passage through the `GLuint` array `MatrixIDs`). -/
def hw2.expectedSends (env : Env) (mvp : M) : List (UniformSend M) :=
  [ ⟨some env.LoadShaders0, toGLint (toGLuint env.glGetUniformLocation0), 1, mvp⟩,
    ⟨some env.LoadShaders1, toGLint (toGLuint env.glGetUniformLocation1), 1, mvp⟩ ]

/-- The tracking of uniform sends in `hw2` after the calls before the loop and `j`
iterations, frame `k` having sent the matrix `mvp k`. -/
def hw2.sendsAfter (env : Env) (mvp : Nat → M) : Nat → SendState M
  | 0 => ⟨none, [], []⟩
  | j + 1 => ⟨some env.LoadShaders1, [],
      (List.range (j + 1)).map fun k => hw2.expectedSends env (mvp k)⟩

/-! ## Configuration and initialization checks -/

/-- The hint and value of a `glfwWindowHint` call. -/
def Call.hint : Call S M → Option (Const × Arg)
  | .glfwWindowHint hint value => some (hint, value)
  | _ => none

/-- Width, height and title of a `glfwCreateWindow` call. -/
def Call.window : Call S M → Option (Int × Int × String)
  | .glfwCreateWindow width height title _ => some (width, height, title)
  | _ => none

/-- The two file names of a `LoadShaders` call and the program handle it returned. -/
def Call.shaderFiles : Call S M → Option (String × String × Nat)
  | .LoadShaders vertex_file_path fragment_file_path ret =>
    some (vertex_file_path, fragment_file_path, ret)
  | _ => none

/-- The windows requested in a trace. -/
def windowsRequested (t : List (Call S M)) : List (Int × Int × String) :=
  t.filterMap Call.window

/-- All window hints of a trace. -/
def hintsGiven (t : List (Call S M)) : List (Const × Arg) := t.filterMap Call.hint

/-- The window hints given before the first `glfwCreateWindow` call of a trace. -/
def hintsBeforeWindow (t : List (Call S M)) : List (Const × Arg) :=
  (t.takeWhile fun c => c.window.isNone).filterMap Call.hint

/-- The pairs of shader files loaded in a trace, in order, each with the handle returned. -/
def shadersLoaded (t : List (Call S M)) : List (String × String × Nat) :=
  t.filterMap Call.shaderFiles

/-- The three initialization checks. -/
inductive Check
  | glfwInit
  | glfwCreateWindow
  | glewInit
  deriving DecidableEq, Repr

/-- The initialization check a call performs, with whether it passed: `glfwInit` passes when
it returns nonzero, `glfwCreateWindow` when it returns a non-null window, `glewInit` when it
returns `GLEW_OK`. -/
def Call.check : Call S M → Option (Check × Bool)
  | .glfwInit ret => some (.glfwInit, decide (ret ≠ 0))
  | .glfwCreateWindow _ _ _ ret => some (.glfwCreateWindow, decide (ret ≠ NULL))
  | .glewInit ret => some (.glewInit, decide (ret = GLEW_OK))
  | _ => none

/-- The checks performed in a trace, in order, each with its outcome. -/
def checksAttempted (t : List (Call S M)) : List (Check × Bool) := t.filterMap Call.check

/-- The call is a check that failed. -/
def Call.failedCheck (c : Call S M) : Bool :=
  match c.check with
  | some (_, passed) => !passed
  | none => false

/-- The calls of a trace that follow its first failed check (none when no check failed). -/
def afterFailure (t : List (Call S M)) : List (Call S M) :=
  (t.dropWhile fun c => !c.failedCheck).tail

/-- The calls of the failure branches: the message, `getchar`, and `glfwTerminate`. -/
def Call.isFailureReport : Call S M → Bool
  | .fprintf_stderr _ => true
  | .getchar => true
  | .glfwTerminate => true
  | _ => false

/-! ## The calls of each frame -/

/-- State of the frame splitter: the frames completed so far and, inside a frame, its calls
so far. -/
structure FrameScan (S M : Type) where
  done : List (List (Call S M))
  current : Option (List (Call S M))

/-- One step of the frame splitter: `glClear` opens a frame, `glfwPollEvents` closes it, and
the calls from the one to the other are the frame. Calls outside a frame are skipped. -/
def frameStep (s : FrameScan S M) (c : Call S M) : FrameScan S M :=
  if c.isClear then { s with current := some [c] }
  else
    match s.current with
    | none => s
    | some f =>
      if c.isPoll then { done := s.done ++ [f ++ [c]], current := none }
      else { s with current := some (f ++ [c]) }

/-- The frames of a trace: for each completed frame its calls from `glClear` to
`glfwPollEvents`. -/
def frameCalls (t : List (Call S M)) : List (List (Call S M)) :=
  (t.foldl frameStep ⟨[], none⟩).done

/-- The matrices passed to `glUniformMatrix4fv` in a list of calls, in order. -/
def matricesSent (t : List (Call S M)) : List M :=
  t.filterMap fun c =>
    match c with
    | .glUniformMatrix4fv _ _ _ value => some value
    | _ => none

/-! ## Vectors -/

/-- Difference of two vectors. -/
def Vec3.sub [Sub S] (a b : Vec3 S) : Vec3 S := ⟨a.x - b.x, a.y - b.y, a.z - b.z⟩

/-- Dot product of two vectors. -/
def Vec3.dot [Add S] [Mul S] (a b : Vec3 S) : S := a.x * b.x + a.y * b.y + a.z * b.z

/-- Cross product of two vectors. -/
def Vec3.cross [Sub S] [Mul S] (a b : Vec3 S) : Vec3 S :=
  ⟨a.y * b.z - a.z * b.y, a.z * b.x - a.x * b.z, a.x * b.y - a.y * b.x⟩

end Observations

/-! ## Sample inputs -/

/-- A sample environment: the three checks return the given values, the handles are
`1, 2, 3, 4`, the uniform locations are `0` and `1`, escape is pressed exactly in frame
`escapeFrame` and the window is never asked to close. -/
def sampleEnv (glfwInit : Int) (window glew : Nat) (escapeFrame : Nat) : Env :=
  { glfwInit := glfwInit
    glfwCreateWindow := window
    glewInit := glew
    glGenVertexArrays := 1
    LoadShaders0 := 2
    LoadShaders1 := 3
    glGetUniformLocation0 := 0
    glGetUniformLocation1 := 1
    glGenBuffers := 4
    glfwGetKey := fun k => if k = escapeFrame then 1 else 0
    glfwWindowShouldClose := fun _ => 0 }

/-- A sample library over `ℚ` in which a matrix is the list of the scalars it was built
from, so that distinct computations stay distinguishable. -/
def sampleLib : Lib ℚ (List ℚ) :=
  { cos := fun a => 1 - a * a / 2
    sin := fun a => a
    lookAt := fun eye center up =>
      [eye.x, eye.y, eye.z, center.x, center.y, center.z, up.x, up.y, up.z]
    perspective := fun fovy aspect near far => [fovy, aspect, near, far]
    mat4 := fun s => [s]
    mul := fun a b => a ++ b }

/-- The sample environment with both `LoadShaders` calls returning `0` and both
`glGetUniformLocation` calls returning `-1`, as when the shaders cannot be loaded. -/
def sampleEnvNoShaders (glfwInit : Int) (window glew : Nat) (escapeFrame : Nat) : Env :=
  { sampleEnv glfwInit window glew escapeFrame with
    LoadShaders0 := 0
    LoadShaders1 := 0
    glGetUniformLocation0 := -1
    glGetUniformLocation1 := -1 }

section Lemmas

variable {S M : Type}

/-! ## The loop body as explicit lists, and the shape of `main` -/

theorem hw1_frame_eq (window : Nat) (programIDs : List Nat) (vertexbuffer : Nat) :
    hw1.frame window programIDs vertexbuffer =
      [ .glClear .GL_COLOR_BUFFER_BIT,
        .glUseProgram (programIDs.getD 0 0),
        .glEnableVertexAttribArray 0,
        .glBindBuffer .GL_ARRAY_BUFFER vertexbuffer,
        .glVertexAttribPointer 0 3 .GL_FLOAT .GL_FALSE 0 0,
        .glDrawArrays .GL_TRIANGLES 0 3,
        .glDisableVertexAttribArray 0,
        .glUseProgram (programIDs.getD 1 0),
        .glEnableVertexAttribArray 0,
        .glBindBuffer .GL_ARRAY_BUFFER vertexbuffer,
        .glVertexAttribPointer 0 3 .GL_FLOAT .GL_FALSE 0 0,
        .glDrawArrays .GL_TRIANGLES 3 3,
        .glDisableVertexAttribArray 0,
        .glfwSwapBuffers window,
        .glfwPollEvents ] := rfl

theorem hw2_frameWith_eq {S M : Type} (window : Nat) (programIDs MatrixIDs : List Nat)
    (vertexbuffer : Nat) (mvp : M) :
    (hw2.frameWith window programIDs MatrixIDs vertexbuffer mvp : List (Call S M)) =
      [ .Sleep 15,
        .glClear .GL_COLOR_BUFFER_BIT,
        .glEnableVertexAttribArray 0,
        .glBindBuffer .GL_ARRAY_BUFFER vertexbuffer,
        .glVertexAttribPointer 0 3 .GL_FLOAT .GL_FALSE 0 0,
        .glUseProgram (programIDs.getD 0 0),
        .glUniformMatrix4fv (toGLint (MatrixIDs.getD 0 0)) 1 .GL_FALSE mvp,
        .glDrawArrays .GL_TRIANGLES 0 3,
        .glUseProgram (programIDs.getD 1 0),
        .glUniformMatrix4fv (toGLint (MatrixIDs.getD 1 0)) 1 .GL_FALSE mvp,
        .glDrawArrays .GL_TRIANGLES 3 3,
        .glDisableVertexAttribArray 0,
        .glfwSwapBuffers window,
        .glfwPollEvents ] := rfl

theorem Env.initOk_iff (env : Env) :
    env.initOk = true ↔
      env.glfwInit ≠ 0 ∧ env.glfwCreateWindow ≠ NULL ∧ env.glewInit = GLEW_OK := by
  simp [Env.initOk, and_assoc]

theorem Env.continues_eq_true (env : Env) (k : Nat) :
    env.continues k = true ↔
      env.glfwGetKey k ≠ GLFW_PRESS ∧ env.glfwWindowShouldClose k = 0 := by
  simp [Env.continues]

theorem Env.continues_eq_false (env : Env) (k : Nat) :
    env.continues k = false ↔
      (env.glfwGetKey k = GLFW_PRESS ∨ env.glfwWindowShouldClose k ≠ 0) := by
  rw [← Bool.not_eq_true, Env.continues_eq_true]
  by_cases h : env.glfwGetKey k = GLFW_PRESS <;> simp [h]

theorem Env.not_reachedCheckFails (env : Env) :
    env.reachedCheckFails ↔ ¬ env.initOk = true := by
  rw [Env.initOk_iff, Env.reachedCheckFails]
  by_cases h1 : env.glfwInit = 0 <;> by_cases h2 : env.glfwCreateWindow = NULL <;>
    by_cases h3 : env.glewInit = GLEW_OK <;> simp [h1, h2, h3]

/-! ## Number of iterations of the render loop -/

theorem iterations_le (env : Env) : ∀ fuel k, iterations env fuel k ≤ fuel := by
  intro fuel
  induction fuel with
  | zero => intro k; simp [iterations]
  | succ fuel ih =>
    intro k
    have := ih (k + 1)
    simp only [iterations]
    split <;> omega

theorem iterations_pos (env : Env) (fuel k : Nat) (h : 0 < fuel) :
    0 < iterations env fuel k := by
  cases fuel with
  | zero => omega
  | succ fuel =>
    simp only [iterations]
    split <;> omega

theorem iterations_exit (env : Env) :
    ∀ (fuel k n : Nat), (∀ j, j < n → env.continues (k + j) = true) →
      env.continues (k + n) = false → n < fuel →
      iterations env fuel k = n + 1 ∧ leaves env fuel k = true := by
  intro fuel
  induction fuel with
  | zero => intro k n _ _ h; omega
  | succ fuel ih =>
    intro k n hc hx hn
    cases n with
    | zero =>
      rw [Nat.add_zero] at hx
      simp [iterations, leaves, hx]
    | succ n =>
      have h0 := hc 0 (by omega)
      rw [Nat.add_zero] at h0
      have ih' := ih (k + 1) n
        (fun j hj => by have := hc (j + 1) (by omega); rwa [show k + 1 + j = k + (j + 1) by omega])
        (by rwa [show k + 1 + n = k + (n + 1) by omega]) (by omega)
      simp [iterations, leaves, h0, ih'.1, ih'.2]

theorem iterations_running (env : Env) :
    ∀ (fuel k : Nat), (∀ j, j < fuel → env.continues (k + j) = true) →
      iterations env fuel k = fuel ∧ leaves env fuel k = false := by
  intro fuel
  induction fuel with
  | zero => intro k _; simp [iterations, leaves]
  | succ fuel ih =>
    intro k hc
    have h0 := hc 0 (by omega)
    rw [Nat.add_zero] at h0
    have ih' := ih (k + 1)
      (fun j hj => by have := hc (j + 1) (by omega); rwa [show k + 1 + j = k + (j + 1) by omega])
    simp [iterations, leaves, h0, ih'.1, ih'.2]

theorem range_succ_flatMap {β : Type} (f : Nat → List β) (m : Nat) :
    (List.range (m + 1)).flatMap f = f 0 ++ (List.range m).flatMap (fun j => f (j + 1)) := by
  rw [List.range_succ_eq_map, List.flatMap_cons, List.flatMap_map]

theorem loopTest_continues (env : Env) (w k : Nat)
    (hk : env.glfwGetKey k ≠ GLFW_PRESS) :
    (loopTest env w k : List (Call S M)) =
      [.glfwGetKey w .GLFW_KEY_ESCAPE (env.glfwGetKey k),
       .glfwWindowShouldClose w (env.glfwWindowShouldClose k)] := by
  simp [loopTest, hk]

theorem loopTest_pressed (env : Env) (w k : Nat)
    (hk : env.glfwGetKey k = GLFW_PRESS) :
    (loopTest env w k : List (Call S M)) =
      [.glfwGetKey w .GLFW_KEY_ESCAPE (env.glfwGetKey k)] := by
  simp [loopTest, hk]

theorem range_one_flatMap {β : Type} (f : Nat → List β) :
    (List.range 1).flatMap f = f 0 := by
  simp [List.range_succ_eq_map]

theorem hw1_renderLoop_eq (env : Env) (w : Nat) (p : List Nat) (v : Nat) :
    ∀ (fuel k : Nat), hw1.renderLoop env w p v fuel k =
      ((List.range (iterations env fuel k)).flatMap
          (fun j => hw1.frame w p v ++ loopTest env w (k + j)),
        leaves env fuel k) := by
  intro fuel
  induction fuel with
  | zero => intro k; simp [hw1.renderLoop, iterations, leaves]
  | succ fuel ih =>
    intro k
    by_cases hk : env.glfwGetKey k = GLFW_PRESS
    · have hc : env.continues k = false := (env.continues_eq_false k).2 (Or.inl hk)
      simp only [iterations, leaves, hc, Bool.false_eq_true, if_false, range_one_flatMap, Nat.add_zero,
        loopTest_pressed env w k hk]
      simp [hw1.renderLoop, hk]
    · by_cases hcl : env.glfwWindowShouldClose k = 0
      · have hc : env.continues k = true := (env.continues_eq_true k).2 ⟨hk, hcl⟩
        simp only [iterations, leaves, hc, if_true]
        rw [range_succ_flatMap]
        simp only [Nat.add_zero, loopTest_continues env w k hk]
        simp [hw1.renderLoop, hk, hcl, ih (k + 1), Nat.add_assoc, Nat.add_comm 1]
      · have hc : env.continues k = false := (env.continues_eq_false k).2 (Or.inr hcl)
        simp only [iterations, leaves, hc, Bool.false_eq_true, if_false, range_one_flatMap, Nat.add_zero,
          loopTest_continues env w k hk]
        simp [hw1.renderLoop, hk, hcl]

theorem hw2_renderLoop_eq {S M : Type} [Field S] (lib : Lib S M) (env : Env) (w : Nat)
    (p q : List Nat) (v : Nat) (P Q : M) :
    ∀ (fuel k : Nat) (a : S), hw2.renderLoop lib env w p q v P Q fuel k a =
      ((List.range (iterations env fuel k)).flatMap
          (fun j => hw2.frame lib w p q v P Q ((fun x => x + hw2.step)^[j] a)
            ++ loopTest env w (k + j)),
        leaves env fuel k) := by
  intro fuel
  induction fuel with
  | zero => intro k a; simp [hw2.renderLoop, iterations, leaves]
  | succ fuel ih =>
    intro k a
    by_cases hk : env.glfwGetKey k = GLFW_PRESS
    · have hc : env.continues k = false := (env.continues_eq_false k).2 (Or.inl hk)
      simp only [iterations, leaves, hc, Bool.false_eq_true, if_false, range_one_flatMap, Nat.add_zero,
        loopTest_pressed env w k hk, Function.iterate_zero_apply]
      simp only [hw2.renderLoop, hk, ne_eq, not_true_eq_false, if_false, Bool.false_eq_true]
    · by_cases hcl : env.glfwWindowShouldClose k = 0
      · have hc : env.continues k = true := (env.continues_eq_true k).2 ⟨hk, hcl⟩
        simp only [iterations, leaves, hc, if_true]
        rw [range_succ_flatMap]
        simp only [Nat.add_zero, loopTest_continues env w k hk, Function.iterate_zero_apply,
          Function.iterate_succ_apply]
        simp only [hw2.renderLoop, hk, hcl, ih (k + 1), ne_eq, not_false_eq_true, if_true,
          List.append_assoc, Nat.add_assoc, Nat.add_comm 1]
      · have hc : env.continues k = false := (env.continues_eq_false k).2 (Or.inr hcl)
        simp only [iterations, leaves, hc, Bool.false_eq_true, if_false, range_one_flatMap, Nat.add_zero,
          loopTest_continues env w k hk, Function.iterate_zero_apply]
        simp only [hw2.renderLoop, hk, hcl, ne_eq, not_false_eq_true, if_true, if_false]

/-! ## The shape of a run of `main` -/

theorem hw1_main_ok (env : Env) (fuel : Nat) (h : env.initOk = true) :
    hw1.main env fuel =
      if leaves env fuel 0 then
        ⟨hw1.prologue env ++ hw1.loopCalls env (iterations env fuel 0) ++ hw1.epilogue env,
          some 0⟩
      else
        ⟨hw1.prologue env ++ hw1.loopCalls env (iterations env fuel 0), none⟩ := by
  obtain ⟨h1, h2, h3⟩ := (env.initOk_iff).1 h
  simp only [hw1.main, h1, h2, h3, if_false, ne_eq, not_true_eq_false, hw1_renderLoop_eq,
    Nat.zero_add, hw1.prologue, hw1.loopCalls, hw1.epilogue]

theorem hw2_iterate_step {S : Type} [Field S] (k : Nat) :
    (fun x : S => x + hw2.step)^[k] 0 = hw2.specAngle k := by
  induction k with
  | zero => rfl
  | succ k ih => rw [Function.iterate_succ_apply', ih]; rfl

theorem hw2_main_ok {S M : Type} [Field S] (lib : Lib S M) (env : Env) (fuel : Nat)
    (h : env.initOk = true) :
    hw2.main lib env fuel =
      if leaves env fuel 0 then
        ⟨hw2.prologue env ++ hw2.loopCalls lib env (iterations env fuel 0) ++ hw2.epilogue env,
          some 0⟩
      else
        ⟨hw2.prologue env ++ hw2.loopCalls lib env (iterations env fuel 0), none⟩ := by
  obtain ⟨h1, h2, h3⟩ := (env.initOk_iff).1 h
  simp only [hw2.main, h1, h2, h3, if_false, ne_eq, not_true_eq_false, hw2_renderLoop_eq,
    Nat.zero_add, hw2.prologue, hw2.loopCalls, hw2.epilogue, hw2_iterate_step, hw2.frame,
    hw2.specMVP, hw2.MVP, hw2.cameraEye]

/-! ## Failing runs -/

theorem hw1_main_initFails (env : Env) (fuel : Nat) (h : env.glfwInit = 0) :
    hw1.main env fuel =
      ⟨[ .glfwInit env.glfwInit, .fprintf_stderr "Failed to initialize GLFW\n", .getchar ],
        some (-1)⟩ := by
  simp only [hw1.main, h, if_true]

theorem hw1_main_windowFails (env : Env) (fuel : Nat) (h1 : env.glfwInit ≠ 0)
    (h2 : env.glfwCreateWindow = NULL) :
    hw1.main env fuel =
      ⟨[ .glfwInit env.glfwInit ] ++ hw1.openWindow env ++
       [ .fprintf_stderr "Failed to open GLFW window. If you have an Intel GPU, they are not 3.3 compatible. Try the 2.1 version of the tutorials.\n",
         .getchar, .glfwTerminate ], some (-1)⟩ := by
  simp only [hw1.main, h1, h2, if_true, if_false]

theorem hw1_main_glewFails (env : Env) (fuel : Nat) (h1 : env.glfwInit ≠ 0)
    (h2 : env.glfwCreateWindow ≠ NULL) (h3 : env.glewInit ≠ GLEW_OK) :
    hw1.main env fuel =
      ⟨[ .glfwInit env.glfwInit ] ++ hw1.openWindow env ++
       [ .glfwMakeContextCurrent env.glfwCreateWindow, .glewInit env.glewInit,
         .fprintf_stderr "Failed to initialize GLEW\n", .getchar, .glfwTerminate ],
        some (-1)⟩ := by
  simp only [hw1.main, h1, h2, h3, if_true, if_false, ne_eq, not_false_eq_true]

theorem hw2_main_initFails [Field S] (lib : Lib S M) (env : Env) (fuel : Nat)
    (h : env.glfwInit = 0) :
    hw2.main lib env fuel =
      ⟨[ .glfwInit env.glfwInit, .fprintf_stderr "Failed to initialize GLFW\n", .getchar ],
        some (-1)⟩ := by
  simp only [hw2.main, h, if_true]

theorem hw2_main_windowFails [Field S] (lib : Lib S M) (env : Env) (fuel : Nat)
    (h1 : env.glfwInit ≠ 0) (h2 : env.glfwCreateWindow = NULL) :
    hw2.main lib env fuel =
      ⟨[ .glfwInit env.glfwInit ] ++ hw2.openWindow env ++
       [ .fprintf_stderr "Failed to open GLFW window. If you have an Intel GPU, they are not 3.3 compatible. Try the 2.1 version of the tutorials.\n",
         .getchar, .glfwTerminate ], some (-1)⟩ := by
  simp only [hw2.main, h1, h2, if_true, if_false]

theorem hw2_main_glewFails [Field S] (lib : Lib S M) (env : Env) (fuel : Nat)
    (h1 : env.glfwInit ≠ 0) (h2 : env.glfwCreateWindow ≠ NULL) (h3 : env.glewInit ≠ GLEW_OK) :
    hw2.main lib env fuel =
      ⟨[ .glfwInit env.glfwInit ] ++ hw2.openWindow env ++
       [ .glfwMakeContextCurrent env.glfwCreateWindow, .glewInit env.glewInit,
         .fprintf_stderr "Failed to initialize GLEW\n", .getchar, .glfwTerminate ],
        some (-1)⟩ := by
  simp only [hw2.main, h1, h2, h3, if_true, if_false, ne_eq, not_false_eq_true]

/-! ## Counting calls -/

theorem countP_range_flatMap {β : Type} (p : β → Bool) (f : Nat → List β) (c : Nat)
    (h : ∀ j, (f j).countP p = c) (m : Nat) :
    ((List.range m).flatMap f).countP p = m * c := by
  induction m with
  | zero => simp
  | succ m ih =>
    rw [List.range_succ, List.flatMap_append, List.countP_append, ih]
    simp [h, Nat.succ_mul]

theorem countP_loopTest (env : Env) (w k : Nat) (p : Call S M → Bool)
    (h1 : ∀ a b c, p (.glfwGetKey a b c) = false)
    (h2 : ∀ a b, p (.glfwWindowShouldClose a b) = false) :
    (loopTest env w k : List (Call S M)).countP p = 0 := by
  unfold loopTest
  split <;> simp [h1, h2]

theorem hw1_framesRendered_loopCalls (env : Env) (m : Nat) :
    framesRendered (hw1.loopCalls env m) = m := by
  unfold framesRendered hw1.loopCalls
  rw [countP_range_flatMap Call.isSwap _ 1, Nat.mul_one]
  intro j
  rw [List.countP_append, countP_loopTest _ _ _ _ (fun _ _ _ => rfl) (fun _ _ => rfl)]
  simp [hw1_frame_eq, Call.isSwap]

theorem hw2_framesRendered_loopCalls [Field S] (lib : Lib S M) (env : Env) (m : Nat) :
    framesRendered (hw2.loopCalls lib env m) = m := by
  unfold framesRendered hw2.loopCalls
  rw [countP_range_flatMap Call.isSwap _ 1, Nat.mul_one]
  intro j
  rw [List.countP_append, countP_loopTest _ _ _ _ (fun _ _ _ => rfl) (fun _ _ => rfl)]
  simp [hw2_frameWith_eq, Call.isSwap]

theorem hw1_exit_eq (env : Env) (fuel : Nat) :
    (hw1.main env fuel).exit =
      if env.initOk = true then (if leaves env fuel 0 then some 0 else none)
      else some (-1) := by
  by_cases h : env.initOk = true
  · rw [hw1_main_ok env fuel h, if_pos h]
    split <;> rfl
  · rw [if_neg h]
    rw [Env.initOk_iff] at h
    by_cases h1 : env.glfwInit = 0
    · rw [hw1_main_initFails env fuel h1]
    · by_cases h2 : env.glfwCreateWindow = NULL
      · rw [hw1_main_windowFails env fuel h1 h2]
      · rw [hw1_main_glewFails env fuel h1 h2 (by tauto)]

theorem hw1_framesRendered_eq (env : Env) (fuel : Nat) :
    framesRendered (hw1.main env fuel).trace =
      if env.initOk = true then iterations env fuel 0 else 0 := by
  by_cases h : env.initOk = true
  · have hp : framesRendered (hw1.prologue env) = 0 := by
      simp [framesRendered, hw1.prologue, hw1.openWindow, hw1.setup, Call.isSwap]
    have he : framesRendered (hw1.epilogue env) = 0 := by
      simp [framesRendered, hw1.epilogue, hw1.cleanup, Call.isSwap]
    have hl := hw1_framesRendered_loopCalls env (iterations env fuel 0)
    simp only [framesRendered] at hp he hl ⊢
    rw [hw1_main_ok env fuel h, if_pos h]
    split <;> simp [List.countP_append, hp, he, hl]
  · rw [if_neg h]
    rw [Env.initOk_iff] at h
    by_cases h1 : env.glfwInit = 0
    · rw [hw1_main_initFails env fuel h1]; simp [framesRendered, Call.isSwap]
    · by_cases h2 : env.glfwCreateWindow = NULL
      · rw [hw1_main_windowFails env fuel h1 h2]
        simp [framesRendered, hw1.openWindow, Call.isSwap]
      · rw [hw1_main_glewFails env fuel h1 h2 (by tauto)]
        simp [framesRendered, hw1.openWindow, Call.isSwap]

theorem hw2_exit_eq [Field S] (lib : Lib S M) (env : Env) (fuel : Nat) :
    (hw2.main lib env fuel).exit =
      if env.initOk = true then (if leaves env fuel 0 then some 0 else none)
      else some (-1) := by
  by_cases h : env.initOk = true
  · rw [hw2_main_ok lib env fuel h, if_pos h]
    split <;> rfl
  · rw [if_neg h]
    rw [Env.initOk_iff] at h
    by_cases h1 : env.glfwInit = 0
    · rw [hw2_main_initFails lib env fuel h1]
    · by_cases h2 : env.glfwCreateWindow = NULL
      · rw [hw2_main_windowFails lib env fuel h1 h2]
      · rw [hw2_main_glewFails lib env fuel h1 h2 (by tauto)]

theorem hw2_framesRendered_eq [Field S] (lib : Lib S M) (env : Env) (fuel : Nat) :
    framesRendered (hw2.main lib env fuel).trace =
      if env.initOk = true then iterations env fuel 0 else 0 := by
  by_cases h : env.initOk = true
  · have hp : framesRendered (hw2.prologue env : List (Call S M)) = 0 := by
      simp [framesRendered, hw2.prologue, hw2.openWindow, hw2.setup, Call.isSwap]
    have he : framesRendered (hw2.epilogue env : List (Call S M)) = 0 := by
      simp [framesRendered, hw2.epilogue, hw2.cleanup, Call.isSwap]
    have hl := hw2_framesRendered_loopCalls lib env (iterations env fuel 0)
    simp only [framesRendered] at hp he hl ⊢
    rw [hw2_main_ok lib env fuel h, if_pos h]
    split <;> simp [List.countP_append, hp, he, hl]
  · rw [if_neg h]
    rw [Env.initOk_iff] at h
    by_cases h1 : env.glfwInit = 0
    · rw [hw2_main_initFails lib env fuel h1]; simp [framesRendered, Call.isSwap]
    · by_cases h2 : env.glfwCreateWindow = NULL
      · rw [hw2_main_windowFails lib env fuel h1 h2]
        simp [framesRendered, hw2.openWindow, Call.isSwap]
      · rw [hw2_main_glewFails lib env fuel h1 h2 (by tauto)]
        simp [framesRendered, hw2.openWindow, Call.isSwap]

theorem iterations_congr (env env' : Env) (h : ∀ k, env.continues k = env'.continues k) :
    ∀ fuel k, iterations env fuel k = iterations env' fuel k ∧
      leaves env fuel k = leaves env' fuel k := by
  intro fuel
  induction fuel with
  | zero => intro k; simp [iterations, leaves]
  | succ fuel ih =>
    intro k
    simp only [iterations, leaves, h k, (ih (k + 1)).1, (ih (k + 1)).2, and_self]

/-! ## Scanning the loop -/

theorem foldl_range_flatMap {σ β : Type} (step : σ → β → σ) (f : Nat → List β) (g : Nat → σ)
    (h : ∀ j, (f j).foldl step (g j) = g (j + 1)) (m : Nat) :
    ((List.range m).flatMap f).foldl step (g 0) = g m := by
  induction m with
  | zero => simp
  | succ m ih =>
    rw [List.range_succ, List.flatMap_append, List.foldl_append, ih]
    simp [h]

theorem foldl_range_flatMap_inv {σ β : Type} (step : σ → β → σ) (f : Nat → List β)
    (I : σ → Prop) (h : ∀ j s, I s → I ((f j).foldl step s)) (m : Nat) (s : σ) (hs : I s) :
    I (((List.range m).flatMap f).foldl step s) := by
  induction m with
  | zero => simpa using hs
  | succ m ih =>
    rw [List.range_succ, List.flatMap_append, List.foldl_append]
    simpa using h m _ ih

theorem foldl_liveStep_neutral (t : List (Call S M)) (s : Option (List Handle))
    (h : ∀ c ∈ t, c.created = none ∧ c.deleted = none) : t.foldl liveStep s = s := by
  induction t generalizing s with
  | nil => rfl
  | cons c t ih =>
    have hc := h c (List.mem_cons_self _ _)
    rw [List.foldl_cons, ih _ (fun d hd => h d (List.mem_cons_of_mem _ hd))]
    cases s with
    | none => rfl
    | some l => simp [liveStep, hc.1, hc.2]

theorem mem_loopTest (env : Env) (w k : Nat) (c : Call S M) (h : c ∈ loopTest env w k) :
    c = .glfwGetKey w .GLFW_KEY_ESCAPE (env.glfwGetKey k) ∨
    c = .glfwWindowShouldClose w (env.glfwWindowShouldClose k) := by
  unfold loopTest at h
  split at h <;> simp at h <;> tauto

theorem hw1_mem_loopCalls (env : Env) (m : Nat) (c : hw1.C) (h : c ∈ hw1.loopCalls env m) :
    c ∈ hw1.frame env.glfwCreateWindow [env.LoadShaders0, env.LoadShaders1] env.glGenBuffers ∨
    ∃ k, c ∈ (loopTest env env.glfwCreateWindow k : List hw1.C) := by
  simp only [hw1.loopCalls, List.mem_flatMap, List.mem_append] at h
  obtain ⟨j, _, hj | hj⟩ := h
  · exact Or.inl hj
  · exact Or.inr ⟨j, hj⟩

theorem hw2_mem_loopCalls [Field S] (lib : Lib S M) (env : Env) (m : Nat) (c : Call S M)
    (h : c ∈ hw2.loopCalls lib env m) :
    (∃ mvp, c ∈ (hw2.frameWith env.glfwCreateWindow [env.LoadShaders0, env.LoadShaders1]
        [toGLuint env.glGetUniformLocation0, toGLuint env.glGetUniformLocation1]
        env.glGenBuffers mvp : List (Call S M))) ∨
    ∃ k, c ∈ (loopTest env env.glfwCreateWindow k : List (Call S M)) := by
  simp only [hw2.loopCalls, List.mem_flatMap, List.mem_append] at h
  obtain ⟨j, _, hj | hj⟩ := h
  · exact Or.inl ⟨_, hj⟩
  · exact Or.inr ⟨j, hj⟩

theorem hw1_loopCalls_neutral (env : Env) (m : Nat) :
    ∀ c ∈ hw1.loopCalls env m, c.created = none ∧ c.deleted = none ∧ c.isTerminate = false := by
  intro c hc
  rcases hw1_mem_loopCalls env m c hc with h | ⟨k, h⟩
  · simp only [hw1_frame_eq, List.mem_cons, List.mem_singleton, List.not_mem_nil, or_false] at h
    rcases h with h | h | h | h | h | h | h | h | h | h | h | h | h | h | h <;> subst h <;>
      exact ⟨rfl, rfl, rfl⟩
  · rcases mem_loopTest env _ k c h with h | h <;> subst h <;> exact ⟨rfl, rfl, rfl⟩

theorem hw2_loopCalls_neutral [Field S] (lib : Lib S M) (env : Env) (m : Nat) :
    ∀ c ∈ hw2.loopCalls lib env m,
      c.created = none ∧ c.deleted = none ∧ c.isTerminate = false := by
  intro c hc
  rcases hw2_mem_loopCalls lib env m c hc with ⟨mvp, h⟩ | ⟨k, h⟩
  · simp only [hw2_frameWith_eq, List.mem_cons, List.mem_singleton, List.not_mem_nil,
      or_false] at h
    rcases h with h | h | h | h | h | h | h | h | h | h | h | h | h | h <;> subst h <;>
      exact ⟨rfl, rfl, rfl⟩
  · rcases mem_loopTest env _ k c h with h | h <;> subst h <;> exact ⟨rfl, rfl, rfl⟩

/-! ## Pairing of creations and deletions -/

theorem filterMap_neutral {β γ : Type} (f : β → Option γ) (t : List β)
    (h : ∀ c ∈ t, f c = none) : t.filterMap f = [] := by
  induction t with
  | nil => rfl
  | cons c t ih =>
    rw [List.filterMap_cons, h c (List.mem_cons_self _ _)]
    exact ih (fun d hd => h d (List.mem_cons_of_mem _ hd))

theorem countP_neutral {β : Type} (p : β → Bool) (t : List β)
    (h : ∀ c ∈ t, p c = false) : t.countP p = 0 := by
  rw [List.countP_eq_zero]
  intro c hc
  simp [h c hc]

theorem hw1_handles_normal (env : Env) (m : Nat) :
    liveHandles (hw1.prologue env ++ hw1.loopCalls env m ++ hw1.epilogue env) = some [] ∧
    createdHandles (hw1.prologue env ++ hw1.loopCalls env m ++ hw1.epilogue env) =
      [.vertexArray env.glGenVertexArrays, .program env.LoadShaders0,
       .program env.LoadShaders1, .buffer env.glGenBuffers] ∧
    deletedHandles (hw1.prologue env ++ hw1.loopCalls env m ++ hw1.epilogue env) =
      [.buffer env.glGenBuffers, .vertexArray env.glGenVertexArrays,
       .program env.LoadShaders0, .program env.LoadShaders1] ∧
    (hw1.prologue env ++ hw1.loopCalls env m ++ hw1.epilogue env).countP Call.isTerminate = 1 := by
  have hn := hw1_loopCalls_neutral env m
  refine ⟨?_, ?_, ?_, ?_⟩
  · simp only [liveHandles, List.foldl_append]
    rw [foldl_liveStep_neutral (hw1.loopCalls env m) _ (fun c hc => ⟨(hn c hc).1, (hn c hc).2.1⟩)]
    by_cases hp : env.LoadShaders1 = env.LoadShaders0
    · simp [hw1.prologue, hw1.openWindow, hw1.setup, hw1.epilogue, hw1.cleanup, liveStep,
        Call.created, Call.deleted, hp]
    · simp [hw1.prologue, hw1.openWindow, hw1.setup, hw1.epilogue, hw1.cleanup, liveStep,
        Call.created, Call.deleted, hp, List.erase_cons]
  · simp only [createdHandles, List.filterMap_append]
    rw [filterMap_neutral _ (hw1.loopCalls env m) (fun c hc => (hn c hc).1)]
    simp [hw1.prologue, hw1.openWindow, hw1.setup, hw1.epilogue, hw1.cleanup, Call.created]
  · simp only [deletedHandles, List.filterMap_append]
    rw [filterMap_neutral _ (hw1.loopCalls env m) (fun c hc => (hn c hc).2.1)]
    simp [hw1.prologue, hw1.openWindow, hw1.setup, hw1.epilogue, hw1.cleanup, Call.deleted]
  · simp only [List.countP_append]
    rw [countP_neutral _ (hw1.loopCalls env m) (fun c hc => (hn c hc).2.2)]
    simp [hw1.prologue, hw1.openWindow, hw1.setup, hw1.epilogue, hw1.cleanup, Call.isTerminate]

theorem hw2_handles_normal [Field S] (lib : Lib S M) (env : Env) (m : Nat) :
    liveHandles (hw2.prologue env ++ hw2.loopCalls lib env m ++ hw2.epilogue env) = some [] ∧
    createdHandles (hw2.prologue env ++ hw2.loopCalls lib env m ++ hw2.epilogue env) =
      [.vertexArray env.glGenVertexArrays, .program env.LoadShaders0,
       .program env.LoadShaders1, .buffer env.glGenBuffers] ∧
    deletedHandles (hw2.prologue env ++ hw2.loopCalls lib env m ++ hw2.epilogue env) =
      [.buffer env.glGenBuffers, .program env.LoadShaders0, .program env.LoadShaders1,
       .vertexArray env.glGenVertexArrays] ∧
    (hw2.prologue env ++ hw2.loopCalls lib env m ++ hw2.epilogue env).countP
      Call.isTerminate = 1 := by
  have hn := hw2_loopCalls_neutral lib env m
  refine ⟨?_, ?_, ?_, ?_⟩
  · simp only [liveHandles, List.foldl_append]
    rw [foldl_liveStep_neutral (hw2.loopCalls lib env m) _
      (fun c hc => ⟨(hn c hc).1, (hn c hc).2.1⟩)]
    by_cases hp : env.LoadShaders1 = env.LoadShaders0
    · simp [hw2.prologue, hw2.openWindow, hw2.setup, hw2.epilogue, hw2.cleanup, liveStep,
        Call.created, Call.deleted, hp]
    · simp [hw2.prologue, hw2.openWindow, hw2.setup, hw2.epilogue, hw2.cleanup, liveStep,
        Call.created, Call.deleted, hp, List.erase_cons]
  · simp only [createdHandles, List.filterMap_append]
    rw [filterMap_neutral _ (hw2.loopCalls lib env m) (fun c hc => (hn c hc).1)]
    simp [hw2.prologue, hw2.openWindow, hw2.setup, hw2.epilogue, hw2.cleanup, Call.created]
  · simp only [deletedHandles, List.filterMap_append]
    rw [filterMap_neutral _ (hw2.loopCalls lib env m) (fun c hc => (hn c hc).2.1)]
    simp [hw2.prologue, hw2.openWindow, hw2.setup, hw2.epilogue, hw2.cleanup, Call.deleted]
  · simp only [List.countP_append]
    rw [countP_neutral _ (hw2.loopCalls lib env m) (fun c hc => (hn c hc).2.2)]
    simp [hw2.prologue, hw2.openWindow, hw2.setup, hw2.epilogue, hw2.cleanup, Call.isTerminate]

theorem hw1_handles_running (env : Env) (m : Nat) :
    liveHandles (hw1.prologue env ++ hw1.loopCalls env m) =
      some [.buffer env.glGenBuffers, .program env.LoadShaders1, .program env.LoadShaders0,
        .vertexArray env.glGenVertexArrays] := by
  have hn := hw1_loopCalls_neutral env m
  simp only [liveHandles, List.foldl_append]
  rw [foldl_liveStep_neutral (hw1.loopCalls env m) _ (fun c hc => ⟨(hn c hc).1, (hn c hc).2.1⟩)]
  simp [hw1.prologue, hw1.openWindow, hw1.setup, liveStep, Call.created, Call.deleted]

theorem hw2_handles_running [Field S] (lib : Lib S M) (env : Env) (m : Nat) :
    liveHandles (hw2.prologue env ++ hw2.loopCalls lib env m) =
      some [.buffer env.glGenBuffers, .program env.LoadShaders1, .program env.LoadShaders0,
        .vertexArray env.glGenVertexArrays] := by
  have hn := hw2_loopCalls_neutral lib env m
  simp only [liveHandles, List.foldl_append]
  rw [foldl_liveStep_neutral (hw2.loopCalls lib env m) _
    (fun c hc => ⟨(hn c hc).1, (hn c hc).2.1⟩)]
  simp [hw2.prologue, hw2.openWindow, hw2.setup, liveStep, Call.created, Call.deleted]

theorem hw1_handles_failing (env : Env) (fuel : Nat) (h : ¬ env.initOk = true) :
    liveHandles (hw1.main env fuel).trace = some [] ∧
    createdHandles (hw1.main env fuel).trace = [] ∧
    deletedHandles (hw1.main env fuel).trace = [] ∧
    (hw1.main env fuel).trace.countP Call.isTerminate = if env.glfwInit = 0 then 0 else 1 := by
  rw [Env.initOk_iff] at h
  by_cases h1 : env.glfwInit = 0
  · rw [hw1_main_initFails env fuel h1]
    simp [liveHandles, createdHandles, deletedHandles, liveStep, Call.created, Call.deleted,
      Call.isTerminate, h1]
  · by_cases h2 : env.glfwCreateWindow = NULL
    · rw [hw1_main_windowFails env fuel h1 h2]
      simp [liveHandles, createdHandles, deletedHandles, liveStep, Call.created, Call.deleted,
        Call.isTerminate, h1, hw1.openWindow]
    · rw [hw1_main_glewFails env fuel h1 h2 (by tauto)]
      simp [liveHandles, createdHandles, deletedHandles, liveStep, Call.created, Call.deleted,
        Call.isTerminate, h1, hw1.openWindow]

theorem hw2_handles_failing [Field S] (lib : Lib S M) (env : Env) (fuel : Nat)
    (h : ¬ env.initOk = true) :
    liveHandles (hw2.main lib env fuel).trace = some [] ∧
    createdHandles (hw2.main lib env fuel).trace = [] ∧
    deletedHandles (hw2.main lib env fuel).trace = [] ∧
    (hw2.main lib env fuel).trace.countP Call.isTerminate =
      if env.glfwInit = 0 then 0 else 1 := by
  rw [Env.initOk_iff] at h
  by_cases h1 : env.glfwInit = 0
  · rw [hw2_main_initFails lib env fuel h1]
    simp [liveHandles, createdHandles, deletedHandles, liveStep, Call.created, Call.deleted,
      Call.isTerminate, h1]
  · by_cases h2 : env.glfwCreateWindow = NULL
    · rw [hw2_main_windowFails lib env fuel h1 h2]
      simp [liveHandles, createdHandles, deletedHandles, liveStep, Call.created, Call.deleted,
        Call.isTerminate, h1, hw2.openWindow]
    · rw [hw2_main_glewFails lib env fuel h1 h2 (by tauto)]
      simp [liveHandles, createdHandles, deletedHandles, liveStep, Call.created, Call.deleted,
        Call.isTerminate, h1, hw2.openWindow]

theorem exit_cases (b : Bool) (l : Bool) (x : Option Int)
    (hx : x = if b = true then (if l = true then some 0 else none) else some (-1)) :
    (x = some 0 ↔ b = true ∧ l = true) ∧ (x = some (-1) ↔ ¬ b = true) ∧
    (x = none ↔ b = true ∧ l = false) := by
  subst hx
  cases b <;> cases l <;> simp

/-! ## Order of the calls of a frame -/

theorem hw1_countP_loopCalls (env : Env) (m c : Nat) (p : hw1.C → Bool)
    (h1 : ∀ a b c, p (.glfwGetKey a b c) = false)
    (h2 : ∀ a b, p (.glfwWindowShouldClose a b) = false)
    (hf : (hw1.frame env.glfwCreateWindow [env.LoadShaders0, env.LoadShaders1]
      env.glGenBuffers).countP p = c) :
    (hw1.loopCalls env m).countP p = m * c := by
  unfold hw1.loopCalls
  rw [countP_range_flatMap p _ c]
  intro j
  rw [List.countP_append, countP_loopTest _ _ _ _ h1 h2, hf, Nat.add_zero]

theorem hw2_countP_loopCalls [Field S] (lib : Lib S M) (env : Env) (m c : Nat)
    (p : Call S M → Bool)
    (h1 : ∀ a b c, p (.glfwGetKey a b c) = false)
    (h2 : ∀ a b, p (.glfwWindowShouldClose a b) = false)
    (hf : ∀ mvp, (hw2.frameWith env.glfwCreateWindow [env.LoadShaders0, env.LoadShaders1]
      [toGLuint env.glGetUniformLocation0, toGLuint env.glGetUniformLocation1]
      env.glGenBuffers mvp : List (Call S M)).countP p = c) :
    (hw2.loopCalls lib env m).countP p = m * c := by
  unfold hw2.loopCalls
  rw [countP_range_flatMap p _ c]
  intro j
  rw [List.countP_append, countP_loopTest _ _ _ _ h1 h2, hf, Nat.add_zero]

theorem orderStep_iteration (env : Env) (w k : Nat) (body : List (Call S M)) (s : Option Phase)
    (hs : ∃ ph, s = some ph ∧ ph.betweenFrames = true)
    (hb : ∀ ph, ph.betweenFrames = true → body.foldl orderStep (some ph) = some .polled) :
    ∃ ph, (body ++ loopTest env w k).foldl orderStep s = some ph ∧
      ph.betweenFrames = true := by
  obtain ⟨ph, rfl, hph⟩ := hs
  rw [List.foldl_append, hb ph hph]
  unfold loopTest
  split
  · exact ⟨.closeTested, by simp [orderStep], rfl⟩
  · exact ⟨.keyTested, by simp [orderStep], rfl⟩

theorem hw1_frame_order (w : Nat) (p : List Nat) (v : Nat) (ph : Phase)
    (h : ph.betweenFrames = true) :
    (hw1.frame w p v).foldl orderStep (some ph) = some .polled := by
  cases ph <;> simp [Phase.betweenFrames] at h <;> simp [hw1_frame_eq, orderStep]

theorem hw2_frame_order (w : Nat) (p q : List Nat) (v : Nat) (mvp : M) (ph : Phase)
    (h : ph.betweenFrames = true) :
    (hw2.frameWith w p q v mvp : List (Call S M)).foldl orderStep (some ph) = some .polled := by
  cases ph <;> simp [Phase.betweenFrames] at h <;> simp [hw2_frameWith_eq, orderStep]

theorem foldl_orderStep_neutral (t : List (Call S M)) (s : Option Phase)
    (h : ∀ c ∈ t, ∀ ph, orderStep (some ph) c = some ph) : t.foldl orderStep s = s := by
  induction t generalizing s with
  | nil => rfl
  | cons c t ih =>
    rw [List.foldl_cons, ih _ (fun d hd => h d (List.mem_cons_of_mem _ hd))]
    cases s with
    | none => rfl
    | some ph => exact h c (List.mem_cons_self _ _) ph

theorem hw1_order_loopCalls (env : Env) (m : Nat) (s : Option Phase)
    (hs : ∃ ph, s = some ph ∧ ph.betweenFrames = true) :
    ∃ ph, (hw1.loopCalls env m).foldl orderStep s = some ph ∧ ph.betweenFrames = true :=
  foldl_range_flatMap_inv orderStep _ (fun s => ∃ ph, s = some ph ∧ ph.betweenFrames = true)
    (fun j s hs => orderStep_iteration env _ j _ s hs (hw1_frame_order _ _ _)) m s hs

theorem hw2_order_loopCalls [Field S] (lib : Lib S M) (env : Env) (m : Nat) (s : Option Phase)
    (hs : ∃ ph, s = some ph ∧ ph.betweenFrames = true) :
    ∃ ph, (hw2.loopCalls lib env m).foldl orderStep s = some ph ∧ ph.betweenFrames = true :=
  foldl_range_flatMap_inv orderStep _ (fun s => ∃ ph, s = some ph ∧ ph.betweenFrames = true)
    (fun j s hs => orderStep_iteration env _ j _ s hs (hw2_frame_order _ _ _ _ _)) m s hs

theorem hw1_order (env : Env) (fuel : Nat) :
    ∃ ph, frameOrder (hw1.main env fuel).trace = some ph ∧ ph.betweenFrames = true := by
  by_cases h : env.initOk = true
  · have hp : (hw1.prologue env).foldl orderStep (some .outside) = some .outside := by
      simp [hw1.prologue, hw1.openWindow, hw1.setup, orderStep]
    have he : ∀ s, (hw1.epilogue env).foldl orderStep s = s := fun s => by
      cases s <;> simp [hw1.epilogue, hw1.cleanup, orderStep]
    obtain ⟨ph, h1, h2⟩ := hw1_order_loopCalls env (iterations env fuel 0) (some .outside)
      ⟨_, rfl, rfl⟩
    rw [hw1_main_ok env fuel h]
    split
    · exact ⟨ph, by simp only [frameOrder, List.foldl_append, hp, h1, he], h2⟩
    · exact ⟨ph, by simp only [frameOrder, List.foldl_append, hp, h1], h2⟩
  · rw [Env.initOk_iff] at h
    refine ⟨.outside, ?_, rfl⟩
    by_cases h1 : env.glfwInit = 0
    · rw [hw1_main_initFails env fuel h1]; simp [frameOrder, orderStep]
    · by_cases h2 : env.glfwCreateWindow = NULL
      · rw [hw1_main_windowFails env fuel h1 h2]
        simp [frameOrder, orderStep, hw1.openWindow]
      · rw [hw1_main_glewFails env fuel h1 h2 (by tauto)]
        simp [frameOrder, orderStep, hw1.openWindow]

theorem hw2_order [Field S] (lib : Lib S M) (env : Env) (fuel : Nat) :
    ∃ ph, frameOrder (hw2.main lib env fuel).trace = some ph ∧ ph.betweenFrames = true := by
  by_cases h : env.initOk = true
  · have hp : (hw2.prologue env : List (Call S M)).foldl orderStep (some .outside)
        = some .outside := by
      simp [hw2.prologue, hw2.openWindow, hw2.setup, orderStep]
    have he : ∀ s, (hw2.epilogue env : List (Call S M)).foldl orderStep s = s := fun s => by
      cases s <;> simp [hw2.epilogue, hw2.cleanup, orderStep]
    obtain ⟨ph, h1, h2⟩ := hw2_order_loopCalls lib env (iterations env fuel 0) (some .outside)
      ⟨_, rfl, rfl⟩
    rw [hw2_main_ok lib env fuel h]
    split
    · exact ⟨ph, by simp only [frameOrder, List.foldl_append, hp, h1, he], h2⟩
    · exact ⟨ph, by simp only [frameOrder, List.foldl_append, hp, h1], h2⟩
  · rw [Env.initOk_iff] at h
    refine ⟨.outside, ?_, rfl⟩
    by_cases h1 : env.glfwInit = 0
    · rw [hw2_main_initFails lib env fuel h1]; simp [frameOrder, orderStep]
    · by_cases h2 : env.glfwCreateWindow = NULL
      · rw [hw2_main_windowFails lib env fuel h1 h2]
        simp [frameOrder, orderStep, hw2.openWindow]
      · rw [hw2_main_glewFails lib env fuel h1 h2 (by tauto)]
        simp [frameOrder, orderStep, hw2.openWindow]

theorem hw1_countP_frameCall (env : Env) (fuel : Nat) (p : hw1.C → Bool)
    (hp : p = Call.isClear ∨ p = Call.isPoll) :
    (hw1.main env fuel).trace.countP p = if env.initOk = true then iterations env fuel 0 else 0 := by
  by_cases h : env.initOk = true
  · rw [hw1_main_ok env fuel h, if_pos h]
    rcases hp with rfl | rfl
    · have hl := hw1_countP_loopCalls env (iterations env fuel 0) 1 Call.isClear
        (fun _ _ _ => rfl) (fun _ _ => rfl) (by simp [hw1_frame_eq, Call.isClear])
      split <;> simp [List.countP_append, hl, hw1.prologue, hw1.openWindow, hw1.setup,
        hw1.epilogue, hw1.cleanup, Call.isClear]
    · have hl := hw1_countP_loopCalls env (iterations env fuel 0) 1 Call.isPoll
        (fun _ _ _ => rfl) (fun _ _ => rfl) (by simp [hw1_frame_eq, Call.isPoll])
      split <;> simp [List.countP_append, hl, hw1.prologue, hw1.openWindow, hw1.setup,
        hw1.epilogue, hw1.cleanup, Call.isPoll]
  · rw [if_neg h]
    rw [Env.initOk_iff] at h
    by_cases h1 : env.glfwInit = 0
    · rw [hw1_main_initFails env fuel h1]
      rcases hp with rfl | rfl <;> simp [Call.isClear, Call.isPoll]
    · by_cases h2 : env.glfwCreateWindow = NULL
      · rw [hw1_main_windowFails env fuel h1 h2]
        rcases hp with rfl | rfl <;> simp [hw1.openWindow, Call.isClear, Call.isPoll]
      · rw [hw1_main_glewFails env fuel h1 h2 (by tauto)]
        rcases hp with rfl | rfl <;> simp [hw1.openWindow, Call.isClear, Call.isPoll]

theorem hw2_countP_frameCall [Field S] (lib : Lib S M) (env : Env) (fuel : Nat)
    (p : Call S M → Bool) (hp : p = Call.isClear ∨ p = Call.isPoll) :
    (hw2.main lib env fuel).trace.countP p =
      if env.initOk = true then iterations env fuel 0 else 0 := by
  by_cases h : env.initOk = true
  · rw [hw2_main_ok lib env fuel h, if_pos h]
    rcases hp with rfl | rfl
    · have hl := hw2_countP_loopCalls lib env (iterations env fuel 0) 1 Call.isClear
        (fun _ _ _ => rfl) (fun _ _ => rfl) (fun _ => by simp [hw2_frameWith_eq, Call.isClear])
      split <;> simp [List.countP_append, hl, hw2.prologue, hw2.openWindow, hw2.setup,
        hw2.epilogue, hw2.cleanup, Call.isClear]
    · have hl := hw2_countP_loopCalls lib env (iterations env fuel 0) 1 Call.isPoll
        (fun _ _ _ => rfl) (fun _ _ => rfl) (fun _ => by simp [hw2_frameWith_eq, Call.isPoll])
      split <;> simp [List.countP_append, hl, hw2.prologue, hw2.openWindow, hw2.setup,
        hw2.epilogue, hw2.cleanup, Call.isPoll]
  · rw [if_neg h]
    rw [Env.initOk_iff] at h
    by_cases h1 : env.glfwInit = 0
    · rw [hw2_main_initFails lib env fuel h1]
      rcases hp with rfl | rfl <;> simp [Call.isClear, Call.isPoll]
    · by_cases h2 : env.glfwCreateWindow = NULL
      · rw [hw2_main_windowFails lib env fuel h1 h2]
        rcases hp with rfl | rfl <;> simp [hw2.openWindow, Call.isClear, Call.isPoll]
      · rw [hw2_main_glewFails lib env fuel h1 h2 (by tauto)]
        rcases hp with rfl | rfl <;> simp [hw2.openWindow, Call.isClear, Call.isPoll]

/-! ## What the draw calls read -/

theorem foldl_sendStep_neutral (t : List (Call S M)) (s : SendState M)
    (h : ∀ c ∈ t, ∀ s : SendState M, sendStep s c = s) : t.foldl sendStep s = s := by
  induction t generalizing s with
  | nil => rfl
  | cons c t ih =>
    rw [List.foldl_cons, h c (List.mem_cons_self _ _)]
    exact ih _ (fun d hd => h d (List.mem_cons_of_mem _ hd))

theorem foldl_sendStep_loopTest (env : Env) (w k : Nat) (s : SendState M) :
    (loopTest env w k : List (Call S M)).foldl sendStep s = s := by
  unfold loopTest
  split <;> rfl

theorem hw2_sendStep_iteration [Field S] (lib : Lib S M) (env : Env) (j : Nat) :
    ((hw2.frameWith env.glfwCreateWindow [env.LoadShaders0, env.LoadShaders1]
        [toGLuint env.glGetUniformLocation0, toGLuint env.glGetUniformLocation1]
        env.glGenBuffers (hw2.specMVP lib j) : List (Call S M))
      ++ loopTest env env.glfwCreateWindow j).foldl sendStep
        (hw2.sendsAfter env (hw2.specMVP lib) j) =
    hw2.sendsAfter env (hw2.specMVP lib) (j + 1) := by
  rw [List.foldl_append, foldl_sendStep_loopTest]
  cases j with
  | zero => simp [hw2_frameWith_eq, sendStep, hw2.sendsAfter, hw2.expectedSends, List.range_succ]
  | succ j =>
    simp only [hw2_frameWith_eq, sendStep, hw2.sendsAfter, hw2.expectedSends, List.foldl_cons,
      List.foldl_nil, List.getD_cons_zero, List.getD_cons_succ, List.nil_append,
      List.cons_append, List.range_succ (j + 1), List.map_append, List.map_cons, List.map_nil]

theorem hw2_sendsAfter_frames (env : Env) (mvp : Nat → M) (m : Nat) :
    (hw2.sendsAfter env mvp m).frames =
      (List.range m).map fun k => hw2.expectedSends env (mvp k) := by
  cases m <;> rfl

theorem hw2_sendsPerFrame [Field S] (lib : Lib S M) (env : Env) (fuel : Nat) :
    sendsPerFrame (hw2.main lib env fuel).trace =
      (List.range (framesRendered (hw2.main lib env fuel).trace)).map fun k =>
        hw2.expectedSends env (hw2.specMVP lib k) := by
  rw [hw2_framesRendered_eq]
  by_cases h : env.initOk = true
  · have hp : (hw2.prologue env : List (Call S M)).foldl sendStep ⟨none, [], []⟩ =
        hw2.sendsAfter env (hw2.specMVP lib) 0 :=
      foldl_sendStep_neutral _ _ (by
        simp [hw2.prologue, hw2.openWindow, hw2.setup, sendStep])
    have hl := foldl_range_flatMap sendStep _ (hw2.sendsAfter env (hw2.specMVP lib))
      (hw2_sendStep_iteration lib env) (iterations env fuel 0)
    have he : ∀ s : SendState M, (hw2.epilogue env : List (Call S M)).foldl sendStep s = s :=
      fun s => rfl
    rw [hw2_main_ok lib env fuel h, if_pos h]
    split <;>
      simp only [sendsPerFrame, List.foldl_append, hp, hw2.loopCalls, hl, he,
        hw2_sendsAfter_frames]
  · rw [if_neg h]
    rw [Env.initOk_iff] at h
    by_cases h1 : env.glfwInit = 0
    · rw [hw2_main_initFails lib env fuel h1]; rfl
    · by_cases h2 : env.glfwCreateWindow = NULL
      · rw [hw2_main_windowFails lib env fuel h1 h2]; rfl
      · rw [hw2_main_glewFails lib env fuel h1 h2 (by tauto)]; rfl

theorem hw1_sendsPerFrame (env : Env) (fuel : Nat) :
    sendsPerFrame (hw1.main env fuel).trace =
      List.replicate (framesRendered (hw1.main env fuel).trace) [] := by
  have key : ∀ t : List hw1.C, t.foldl sendStep ⟨none, [], []⟩ =
      ⟨(t.foldl sendStep ⟨none, [], []⟩).program, [],
        List.replicate (framesRendered t) []⟩ := by
    intro t
    induction t using List.reverseRecOn with
    | nil => rfl
    | append_singleton t c ih =>
      rw [List.foldl_append, List.foldl_cons, List.foldl_nil, ih]
      cases c <;>
        simp [sendStep, framesRendered, Call.isSwap, List.countP_append, List.replicate_succ']
      rename_i value
      exact value.elim
  rw [sendsPerFrame, key]

theorem hw2_locationsObtained [Field S] (lib : Lib S M) (env : Env) (fuel : Nat) :
    locationsObtained (hw2.main lib env fuel).trace =
      if env.initOk = true then
        [(env.LoadShaders0, "MVP", env.glGetUniformLocation0),
         (env.LoadShaders1, "MVP", env.glGetUniformLocation1)]
      else [] := by
  by_cases h : env.initOk = true
  · have e1 : locationsObtained (hw2.loopCalls lib env (iterations env fuel 0)) = [] := by
      apply filterMap_neutral
      intro c hc
      rcases hw2_mem_loopCalls lib env _ c hc with ⟨mvp, hm⟩ | ⟨k, hm⟩
      · simp only [hw2_frameWith_eq, List.mem_cons, List.mem_singleton, List.not_mem_nil,
          or_false] at hm
        rcases hm with h | h | h | h | h | h | h | h | h | h | h | h | h | h <;> subst h <;> rfl
      · rcases mem_loopTest env _ k c hm with h | h <;> subst h <;> rfl
    unfold locationsObtained at e1 ⊢
    rw [hw2_main_ok lib env fuel h, if_pos h]
    split <;>
      simp [e1, hw2.prologue, hw2.openWindow, hw2.setup, hw2.epilogue, hw2.cleanup]
  · rw [if_neg h]
    rw [Env.initOk_iff] at h
    by_cases h1 : env.glfwInit = 0
    · rw [hw2_main_initFails lib env fuel h1]; rfl
    · by_cases h2 : env.glfwCreateWindow = NULL
      · rw [hw2_main_windowFails lib env fuel h1 h2]; rfl
      · rw [hw2_main_glewFails lib env fuel h1 h2 (by tauto)]; rfl

theorem toGLint_toGLuint (x : Int) (h1 : -(2 ^ 31) ≤ x) (h2 : x < 2 ^ 31) :
    toGLint (toGLuint x) = x := by
  unfold toGLint toGLuint
  have hm : (0 : Int) ≤ x % 2 ^ 32 := Int.emod_nonneg _ (by norm_num)
  have hlt : x % 2 ^ 32 < 2 ^ 32 := Int.emod_lt_of_pos _ (by norm_num)
  have hn : (((x % 2 ^ 32).toNat % 2 ^ 32 : Nat) : Int) = x % 2 ^ 32 := by
    rw [Nat.mod_eq_of_lt (by omega)]
    exact Int.toNat_of_nonneg hm
  by_cases hx : 0 ≤ x
  · have e : x % 2 ^ 32 = x := Int.emod_eq_of_lt hx (by omega)
    rw [if_pos (by omega), hn, e]
  · have e : x % 2 ^ 32 = x + 2 ^ 32 := by
      rw [← Int.add_emod_self]
      exact Int.emod_eq_of_lt (by omega) (by omega)
    rw [if_neg (by omega), hn, e]
    omega

/-! ## Configuration and initialization checks -/

theorem hw1_loopCalls_silent (env : Env) (m : Nat) :
    ∀ c ∈ hw1.loopCalls env m,
      c.hint = none ∧ c.window = none ∧ c.shaderFiles = none ∧ c.check = none := by
  intro c hc
  rcases hw1_mem_loopCalls env m c hc with h | ⟨k, h⟩
  · simp only [hw1_frame_eq, List.mem_cons, List.mem_singleton, List.not_mem_nil, or_false] at h
    rcases h with h | h | h | h | h | h | h | h | h | h | h | h | h | h | h <;> subst h <;>
      exact ⟨rfl, rfl, rfl, rfl⟩
  · rcases mem_loopTest env _ k c h with h | h <;> subst h <;> exact ⟨rfl, rfl, rfl, rfl⟩

theorem hw2_loopCalls_silent [Field S] (lib : Lib S M) (env : Env) (m : Nat) :
    ∀ c ∈ hw2.loopCalls lib env m,
      c.hint = none ∧ c.window = none ∧ c.shaderFiles = none ∧ c.check = none := by
  intro c hc
  rcases hw2_mem_loopCalls lib env m c hc with ⟨mvp, h⟩ | ⟨k, h⟩
  · simp only [hw2_frameWith_eq, List.mem_cons, List.mem_singleton, List.not_mem_nil,
      or_false] at h
    rcases h with h | h | h | h | h | h | h | h | h | h | h | h | h | h <;> subst h <;>
      exact ⟨rfl, rfl, rfl, rfl⟩
  · rcases mem_loopTest env _ k c h with h | h <;> subst h <;> exact ⟨rfl, rfl, rfl, rfl⟩

theorem hw1_configuration (env : Env) (fuel : Nat) :
    windowsRequested (hw1.main env fuel).trace =
      (if env.glfwInit = 0 then [] else [(1024, 512, "Red and green triangles")]) ∧
    hintsBeforeWindow (hw1.main env fuel).trace =
      (if env.glfwInit = 0 then [] else
        [(.GLFW_SAMPLES, .num 4), (.GLFW_CONTEXT_VERSION_MAJOR, .num 3),
         (.GLFW_CONTEXT_VERSION_MINOR, .num 3), (.GLFW_OPENGL_FORWARD_COMPAT, .sym .GL_TRUE),
         (.GLFW_OPENGL_PROFILE, .sym .GLFW_OPENGL_CORE_PROFILE)]) ∧
    hintsGiven (hw1.main env fuel).trace = hintsBeforeWindow (hw1.main env fuel).trace ∧
    shadersLoaded (hw1.main env fuel).trace =
      (if env.initOk = true then
        [("VertexShader.vertexshader", "TriangleFragmentShader1.fragmentshader", env.LoadShaders0),
         ("VertexShader.vertexshader", "TriangleFragmentShader2.fragmentshader", env.LoadShaders1)]
      else []) := by
  by_cases h : env.initOk = true
  · have hs := hw1_loopCalls_silent env (iterations env fuel 0)
    have e1 := filterMap_neutral Call.hint _ (fun c hc => (hs c hc).1)
    have e2 := filterMap_neutral Call.window _ (fun c hc => (hs c hc).2.1)
    have e3 := filterMap_neutral Call.shaderFiles _ (fun c hc => (hs c hc).2.2.1)
    obtain ⟨h1, -, -⟩ := (env.initOk_iff).1 h
    rw [hw1_main_ok env fuel h]
    split <;>
      simp [windowsRequested, hintsBeforeWindow, hintsGiven, shadersLoaded, e1, e2, e3, h, h1,
        hw1.prologue, hw1.openWindow, hw1.setup, hw1.epilogue, hw1.cleanup, Call.hint,
        Call.window, Call.shaderFiles, List.takeWhile_cons]
  · rw [if_neg h]
    rw [Env.initOk_iff] at h
    by_cases h1 : env.glfwInit = 0
    · rw [hw1_main_initFails env fuel h1]
      simp [windowsRequested, hintsBeforeWindow, hintsGiven, shadersLoaded, h1, Call.hint,
        Call.window, Call.shaderFiles, List.takeWhile_cons]
    · by_cases h2 : env.glfwCreateWindow = NULL
      · rw [hw1_main_windowFails env fuel h1 h2]
        simp [windowsRequested, hintsBeforeWindow, hintsGiven, shadersLoaded, h1, Call.hint,
          Call.window, Call.shaderFiles, List.takeWhile_cons, hw1.openWindow]
      · rw [hw1_main_glewFails env fuel h1 h2 (by tauto)]
        simp [windowsRequested, hintsBeforeWindow, hintsGiven, shadersLoaded, h1, Call.hint,
          Call.window, Call.shaderFiles, List.takeWhile_cons, hw1.openWindow]

theorem hw2_configuration [Field S] (lib : Lib S M) (env : Env) (fuel : Nat) :
    windowsRequested (hw2.main lib env fuel).trace =
      (if env.glfwInit = 0 then [] else [(1024, 512, "Two rotating triangles")]) ∧
    hintsBeforeWindow (hw2.main lib env fuel).trace =
      (if env.glfwInit = 0 then [] else
        [(.GLFW_SAMPLES, .num 4), (.GLFW_CONTEXT_VERSION_MAJOR, .num 3),
         (.GLFW_CONTEXT_VERSION_MINOR, .num 3), (.GLFW_OPENGL_FORWARD_COMPAT, .sym .GL_TRUE),
         (.GLFW_OPENGL_PROFILE, .sym .GLFW_OPENGL_CORE_PROFILE)]) ∧
    hintsGiven (hw2.main lib env fuel).trace = hintsBeforeWindow (hw2.main lib env fuel).trace ∧
    shadersLoaded (hw2.main lib env fuel).trace =
      (if env.initOk = true then
        [("SimpleTransform.vertexshader", "TriangleFragmentShader1.fragmentshader", env.LoadShaders0),
         ("SimpleTransform.vertexshader", "TriangleFragmentShader2.fragmentshader", env.LoadShaders1)]
      else []) := by
  by_cases h : env.initOk = true
  · have hs := hw2_loopCalls_silent lib env (iterations env fuel 0)
    have e1 := filterMap_neutral Call.hint _ (fun c hc => (hs c hc).1)
    have e2 := filterMap_neutral Call.window _ (fun c hc => (hs c hc).2.1)
    have e3 := filterMap_neutral Call.shaderFiles _ (fun c hc => (hs c hc).2.2.1)
    obtain ⟨h1, -, -⟩ := (env.initOk_iff).1 h
    rw [hw2_main_ok lib env fuel h]
    split <;>
      simp [windowsRequested, hintsBeforeWindow, hintsGiven, shadersLoaded, e1, e2, e3, h, h1,
        hw2.prologue, hw2.openWindow, hw2.setup, hw2.epilogue, hw2.cleanup, Call.hint,
        Call.window, Call.shaderFiles, List.takeWhile_cons]
  · rw [if_neg h]
    rw [Env.initOk_iff] at h
    by_cases h1 : env.glfwInit = 0
    · rw [hw2_main_initFails lib env fuel h1]
      simp [windowsRequested, hintsBeforeWindow, hintsGiven, shadersLoaded, h1, Call.hint,
        Call.window, Call.shaderFiles, List.takeWhile_cons]
    · by_cases h2 : env.glfwCreateWindow = NULL
      · rw [hw2_main_windowFails lib env fuel h1 h2]
        simp [windowsRequested, hintsBeforeWindow, hintsGiven, shadersLoaded, h1, Call.hint,
          Call.window, Call.shaderFiles, List.takeWhile_cons, hw2.openWindow]
      · rw [hw2_main_glewFails lib env fuel h1 h2 (by tauto)]
        simp [windowsRequested, hintsBeforeWindow, hintsGiven, shadersLoaded, h1, Call.hint,
          Call.window, Call.shaderFiles, List.takeWhile_cons, hw2.openWindow]

theorem hw1_checks (env : Env) (fuel : Nat) :
    checksAttempted (hw1.main env fuel).trace =
      (if env.glfwInit = 0 then [(.glfwInit, false)]
       else if env.glfwCreateWindow = NULL then [(.glfwInit, true), (.glfwCreateWindow, false)]
       else [(.glfwInit, true), (.glfwCreateWindow, true),
             (.glewInit, decide (env.glewInit = GLEW_OK))]) ∧
    (¬ env.initOk = true →
      ((afterFailure (hw1.main env fuel).trace).all Call.isFailureReport = true ∧
       afterFailure (hw1.main env fuel).trace ≠ [])) := by
  by_cases h : env.initOk = true
  · have hs := hw1_loopCalls_silent env (iterations env fuel 0)
    have e1 := filterMap_neutral Call.check _ (fun c hc => (hs c hc).2.2.2)
    obtain ⟨h1, h2, h3⟩ := (env.initOk_iff).1 h
    refine ⟨?_, fun hn => absurd h hn⟩
    rw [hw1_main_ok env fuel h]
    split <;>
      simp [checksAttempted, e1, h1, h2, h3, hw1.prologue, hw1.openWindow, hw1.setup,
        hw1.epilogue, hw1.cleanup, Call.check]
  · have h' := h
    rw [Env.initOk_iff] at h
    by_cases h1 : env.glfwInit = 0
    · rw [hw1_main_initFails env fuel h1]
      simp [checksAttempted, afterFailure, Call.failedCheck, Call.check, Call.isFailureReport,
        h1, List.dropWhile_cons]
    · by_cases h2 : env.glfwCreateWindow = NULL
      · rw [hw1_main_windowFails env fuel h1 h2]
        simp [checksAttempted, afterFailure, Call.failedCheck, Call.check,
          Call.isFailureReport, h1, h2, List.dropWhile_cons, hw1.openWindow]
      · have h3 : env.glewInit ≠ GLEW_OK := by tauto
        rw [hw1_main_glewFails env fuel h1 h2 h3]
        simp [checksAttempted, afterFailure, Call.failedCheck, Call.check,
          Call.isFailureReport, h1, h2, h3, List.dropWhile_cons, hw1.openWindow]

theorem hw2_checks [Field S] (lib : Lib S M) (env : Env) (fuel : Nat) :
    checksAttempted (hw2.main lib env fuel).trace =
      (if env.glfwInit = 0 then [(.glfwInit, false)]
       else if env.glfwCreateWindow = NULL then [(.glfwInit, true), (.glfwCreateWindow, false)]
       else [(.glfwInit, true), (.glfwCreateWindow, true),
             (.glewInit, decide (env.glewInit = GLEW_OK))]) ∧
    (¬ env.initOk = true →
      ((afterFailure (hw2.main lib env fuel).trace).all Call.isFailureReport = true ∧
       afterFailure (hw2.main lib env fuel).trace ≠ [])) := by
  by_cases h : env.initOk = true
  · have hs := hw2_loopCalls_silent lib env (iterations env fuel 0)
    have e1 := filterMap_neutral Call.check _ (fun c hc => (hs c hc).2.2.2)
    obtain ⟨h1, h2, h3⟩ := (env.initOk_iff).1 h
    refine ⟨?_, fun hn => absurd h hn⟩
    rw [hw2_main_ok lib env fuel h]
    split <;>
      simp [checksAttempted, e1, h1, h2, h3, hw2.prologue, hw2.openWindow, hw2.setup,
        hw2.epilogue, hw2.cleanup, Call.check]
  · have h' := h
    rw [Env.initOk_iff] at h
    by_cases h1 : env.glfwInit = 0
    · rw [hw2_main_initFails lib env fuel h1]
      simp [checksAttempted, afterFailure, Call.failedCheck, Call.check, Call.isFailureReport,
        h1, List.dropWhile_cons]
    · by_cases h2 : env.glfwCreateWindow = NULL
      · rw [hw2_main_windowFails lib env fuel h1 h2]
        simp [checksAttempted, afterFailure, Call.failedCheck, Call.check,
          Call.isFailureReport, h1, h2, List.dropWhile_cons, hw2.openWindow]
      · have h3 : env.glewInit ≠ GLEW_OK := by tauto
        rw [hw2_main_glewFails lib env fuel h1 h2 h3]
        simp [checksAttempted, afterFailure, Call.failedCheck, Call.check,
          Call.isFailureReport, h1, h2, h3, List.dropWhile_cons, hw2.openWindow]

/-! ## The calls of each frame -/

theorem foldl_frameStep_outside (t : List (Call S M)) (d : List (List (Call S M)))
    (h : ∀ c ∈ t, c.isClear = false) :
    t.foldl frameStep ⟨d, none⟩ = ⟨d, none⟩ := by
  induction t with
  | nil => rfl
  | cons c t ih =>
    rw [List.foldl_cons]
    have hc := h c (List.mem_cons_self _ _)
    simp only [frameStep, hc, Bool.false_eq_true, if_false]
    exact ih (fun e he => h e (List.mem_cons_of_mem _ he))

theorem loopTest_not_clear (env : Env) (w k : Nat) :
    ∀ c ∈ (loopTest env w k : List (Call S M)), c.isClear = false := by
  intro c hc
  rcases mem_loopTest env w k c hc with h | h <;> subst h <;> rfl

theorem hw1_frameStep_iteration (env : Env) (w : Nat) (p : List Nat) (v j : Nat)
    (d : List (List hw1.C)) :
    (hw1.frame w p v ++ loopTest env w j).foldl frameStep ⟨d, none⟩ =
      ⟨d ++ [hw1.frame w p v], none⟩ := by
  rw [List.foldl_append]
  have : (hw1.frame w p v).foldl frameStep ⟨d, none⟩ = ⟨d ++ [hw1.frame w p v], none⟩ := by
    simp [hw1_frame_eq, frameStep, Call.isClear, Call.isPoll]
  rw [this]
  exact foldl_frameStep_outside _ _ (loopTest_not_clear env w j)

theorem hw2_frameStep_iteration (env : Env) (w : Nat) (p q : List Nat) (v j : Nat) (mvp : M)
    (d : List (List (Call S M))) :
    (hw2.frameWith w p q v mvp ++ loopTest env w j).foldl frameStep ⟨d, none⟩ =
      ⟨d ++ [(hw2.frameWith w p q v mvp).tail], none⟩ := by
  rw [List.foldl_append]
  have : (hw2.frameWith w p q v mvp : List (Call S M)).foldl frameStep ⟨d, none⟩ =
      ⟨d ++ [(hw2.frameWith w p q v mvp).tail], none⟩ := by
    simp [hw2_frameWith_eq, frameStep, Call.isClear, Call.isPoll]
  rw [this]
  exact foldl_frameStep_outside _ _ (loopTest_not_clear env w j)

theorem hw1_frameCalls (env : Env) (fuel : Nat) :
    frameCalls (hw1.main env fuel).trace =
      List.replicate (framesRendered (hw1.main env fuel).trace)
        (hw1.frame env.glfwCreateWindow [env.LoadShaders0, env.LoadShaders1]
          env.glGenBuffers) := by
  rw [hw1_framesRendered_eq]
  by_cases h : env.initOk = true
  · have hp : (hw1.prologue env).foldl frameStep ⟨[], none⟩ = ⟨[], none⟩ :=
      foldl_frameStep_outside _ _ (by
        simp [hw1.prologue, hw1.openWindow, hw1.setup, Call.isClear])
    have hl := foldl_range_flatMap frameStep
      (fun j => hw1.frame env.glfwCreateWindow [env.LoadShaders0, env.LoadShaders1]
        env.glGenBuffers ++ loopTest env env.glfwCreateWindow j)
      (fun j => ⟨List.replicate j (hw1.frame env.glfwCreateWindow
        [env.LoadShaders0, env.LoadShaders1] env.glGenBuffers), none⟩)
      (fun j => by rw [hw1_frameStep_iteration, ← List.replicate_succ'])
      (iterations env fuel 0)
    have he : ∀ d, (hw1.epilogue env).foldl frameStep ⟨d, none⟩ = ⟨d, none⟩ := fun d =>
      foldl_frameStep_outside _ _ (by simp [hw1.epilogue, hw1.cleanup, Call.isClear])
    simp only [List.replicate_zero] at hl
    rw [hw1_main_ok env fuel h, if_pos h]
    split <;> simp only [frameCalls, List.foldl_append, hp, hw1.loopCalls, hl, he]
  · rw [if_neg h]
    rw [Env.initOk_iff] at h
    by_cases h1 : env.glfwInit = 0
    · rw [hw1_main_initFails env fuel h1]; rfl
    · by_cases h2 : env.glfwCreateWindow = NULL
      · rw [hw1_main_windowFails env fuel h1 h2]; rfl
      · rw [hw1_main_glewFails env fuel h1 h2 (by tauto)]; rfl

theorem hw2_frameCalls [Field S] (lib : Lib S M) (env : Env) (fuel : Nat) :
    frameCalls (hw2.main lib env fuel).trace =
      (List.range (framesRendered (hw2.main lib env fuel).trace)).map fun k =>
        (hw2.frameWith env.glfwCreateWindow [env.LoadShaders0, env.LoadShaders1]
          [toGLuint env.glGetUniformLocation0, toGLuint env.glGetUniformLocation1]
          env.glGenBuffers (hw2.specMVP lib k)).tail := by
  rw [hw2_framesRendered_eq]
  by_cases h : env.initOk = true
  · have hp : (hw2.prologue env : List (Call S M)).foldl frameStep ⟨[], none⟩ = ⟨[], none⟩ :=
      foldl_frameStep_outside _ _ (by
        simp [hw2.prologue, hw2.openWindow, hw2.setup, Call.isClear])
    have hl := foldl_range_flatMap frameStep
      (fun j => (hw2.frameWith env.glfwCreateWindow [env.LoadShaders0, env.LoadShaders1]
          [toGLuint env.glGetUniformLocation0, toGLuint env.glGetUniformLocation1]
          env.glGenBuffers (hw2.specMVP lib j) : List (Call S M))
        ++ loopTest env env.glfwCreateWindow j)
      (fun j => ⟨(List.range j).map fun k =>
        (hw2.frameWith env.glfwCreateWindow [env.LoadShaders0, env.LoadShaders1]
          [toGLuint env.glGetUniformLocation0, toGLuint env.glGetUniformLocation1]
          env.glGenBuffers (hw2.specMVP lib k)).tail, none⟩)
      (fun j => by
        rw [hw2_frameStep_iteration]
        simp only [List.range_succ, List.map_append, List.map_cons, List.map_nil])
      (iterations env fuel 0)
    have he : ∀ d, (hw2.epilogue env : List (Call S M)).foldl frameStep ⟨d, none⟩
        = ⟨d, none⟩ := fun d =>
      foldl_frameStep_outside _ _ (by simp [hw2.epilogue, hw2.cleanup, Call.isClear])
    simp only [List.range_zero, List.map_nil] at hl
    rw [hw2_main_ok lib env fuel h, if_pos h]
    split <;> simp only [frameCalls, List.foldl_append, hp, hw2.loopCalls, hl, he]
  · rw [if_neg h]
    rw [Env.initOk_iff] at h
    by_cases h1 : env.glfwInit = 0
    · rw [hw2_main_initFails lib env fuel h1]; rfl
    · by_cases h2 : env.glfwCreateWindow = NULL
      · rw [hw2_main_windowFails lib env fuel h1 h2]; rfl
      · rw [hw2_main_glewFails lib env fuel h1 h2 (by tauto)]; rfl

theorem hw2_specAngle_eq [Field S] (k : Nat) : (hw2.specAngle k : S) = 0.02 * (k : S) := by
  induction k with
  | zero => simp [hw2.specAngle]
  | succ k ih => rw [hw2.specAngle, ih]; push_cast; ring

end Lemmas

/-! ## The claims -/

/-- C1: in `hw1` and in `hw2`, for every outcome of the external calls and every bound on the
loop: `main` returns `-1` exactly when one of the three checks that is reached fails; and when
`glfwInit` reports failure, or `glfwCreateWindow` returns `NULL`, or `glewInit` returns
something other than `GLEW_OK`, `main` returns `-1` having printed exactly one message to
`stderr`. -/
theorem C1_init_failure_returns_minus_one :
    (∀ (env : Env) (fuel : Nat),
      ((hw1.main env fuel).exit = some (-1) ↔ env.reachedCheckFails) ∧
      ((env.glfwInit = 0 ∨ env.glfwCreateWindow = NULL ∨ env.glewInit ≠ GLEW_OK) →
        (hw1.main env fuel).exit = some (-1) ∧
        (hw1.main env fuel).trace.countP Call.isStderr = 1)) ∧
    (∀ (S M : Type) [Field S] (lib : Lib S M) (env : Env) (fuel : Nat),
      ((hw2.main lib env fuel).exit = some (-1) ↔ env.reachedCheckFails) ∧
      ((env.glfwInit = 0 ∨ env.glfwCreateWindow = NULL ∨ env.glewInit ≠ GLEW_OK) →
        (hw2.main lib env fuel).exit = some (-1) ∧
        (hw2.main lib env fuel).trace.countP Call.isStderr = 1)) := by
  refine ⟨fun env fuel => ⟨?_, ?_⟩, fun S M _ lib env fuel => ⟨?_, ?_⟩⟩
  · rw [hw1_exit_eq, Env.not_reachedCheckFails]
    by_cases h : env.initOk = true
    · simp only [h, if_true, not_true_eq_false, iff_false]
      split <;> simp
    · simp [h]
  · intro h
    by_cases h1 : env.glfwInit = 0
    · rw [hw1_main_initFails env fuel h1]; simp [Call.isStderr]
    · by_cases h2 : env.glfwCreateWindow = NULL
      · rw [hw1_main_windowFails env fuel h1 h2]; simp [hw1.openWindow, Call.isStderr]
      · rw [hw1_main_glewFails env fuel h1 h2 (by tauto)]
        simp [hw1.openWindow, Call.isStderr]
  · rw [hw2_exit_eq, Env.not_reachedCheckFails]
    by_cases h : env.initOk = true
    · simp only [h, if_true, not_true_eq_false, iff_false]
      split <;> simp
    · simp [h]
  · intro h
    by_cases h1 : env.glfwInit = 0
    · rw [hw2_main_initFails lib env fuel h1]; simp [Call.isStderr]
    · by_cases h2 : env.glfwCreateWindow = NULL
      · rw [hw2_main_windowFails lib env fuel h1 h2]; simp [hw2.openWindow, Call.isStderr]
      · rw [hw2_main_glewFails lib env fuel h1 h2 (by tauto)]
        simp [hw2.openWindow, Call.isStderr]

/-- Witness of C1: with `glfwCreateWindow` returning `NULL`, both programs return `-1` and
print one message. -/
theorem C1_init_failure_returns_minus_one_witness :
    ((hw1.main (sampleEnv 1 0 0 2) 5).exit = some (-1) ∧
      (hw1.main (sampleEnv 1 0 0 2) 5).trace.countP Call.isStderr = 1) ∧
    ((hw2.main sampleLib (sampleEnv 1 0 0 2) 5).exit = some (-1) ∧
      (hw2.main sampleLib (sampleEnv 1 0 0 2) 5).trace.countP Call.isStderr = 1) :=
  ⟨(C1_init_failure_returns_minus_one.1 (sampleEnv 1 0 0 2) 5).2 (Or.inr (Or.inl rfl)),
   (C1_init_failure_returns_minus_one.2 ℚ (List ℚ) sampleLib (sampleEnv 1 0 0 2) 5).2
     (Or.inr (Or.inl rfl))⟩

/-- C2: in `hw1` and in `hw2`, when the three checks pass, the loop body runs at least once
whenever one iteration is allowed, whatever the inputs; if frame `n` (counted from `0`) is the
first after which escape is pressed or close is requested, then every run allowed more than
`n` iterations renders exactly `n + 1` frames and returns `0`, and a run allowed
`fuel ≤ n` iterations has rendered `fuel` frames and has not returned; and if no such frame
exists the loop never ends. -/
theorem C2_loop_runs_until_escape_or_close :
    (∀ (env : Env) (fuel : Nat), env.initOk = true →
      (0 < fuel → 0 < framesRendered (hw1.main env fuel).trace) ∧
      (∀ n, env.firstExit n →
        (n < fuel → (hw1.main env fuel).exit = some 0 ∧
          framesRendered (hw1.main env fuel).trace = n + 1) ∧
        (fuel ≤ n → (hw1.main env fuel).exit = none ∧
          framesRendered (hw1.main env fuel).trace = fuel)) ∧
      ((∀ k, env.continues k = true) → (hw1.main env fuel).exit = none ∧
          framesRendered (hw1.main env fuel).trace = fuel)) ∧
    (∀ (S M : Type) [Field S] (lib : Lib S M) (env : Env) (fuel : Nat), env.initOk = true →
      (0 < fuel → 0 < framesRendered (hw2.main lib env fuel).trace) ∧
      (∀ n, env.firstExit n →
        (n < fuel → (hw2.main lib env fuel).exit = some 0 ∧
          framesRendered (hw2.main lib env fuel).trace = n + 1) ∧
        (fuel ≤ n → (hw2.main lib env fuel).exit = none ∧
          framesRendered (hw2.main lib env fuel).trace = fuel)) ∧
      ((∀ k, env.continues k = true) → (hw2.main lib env fuel).exit = none ∧
          framesRendered (hw2.main lib env fuel).trace = fuel)) := by
  refine ⟨fun env fuel h => ?_, fun S M _ lib env fuel h => ?_⟩
  · rw [hw1_exit_eq, hw1_framesRendered_eq]
    simp only [h, if_true]
    refine ⟨fun hf => iterations_pos env fuel 0 hf, fun n hn => ⟨fun hlt => ?_, fun hle => ?_⟩,
      fun hall => ?_⟩
    · have := iterations_exit env fuel 0 n (by simpa using hn.1) (by simpa using hn.2) hlt
      simp [this.1, this.2]
    · have := iterations_running env fuel 0 (fun j hj => by simpa using hn.1 j (by omega))
      simp [this.1, this.2]
    · have := iterations_running env fuel 0 (fun j _ => hall _)
      simp [this.1, this.2]
  · rw [hw2_exit_eq, hw2_framesRendered_eq]
    simp only [h, if_true]
    refine ⟨fun hf => iterations_pos env fuel 0 hf, fun n hn => ⟨fun hlt => ?_, fun hle => ?_⟩,
      fun hall => ?_⟩
    · have := iterations_exit env fuel 0 n (by simpa using hn.1) (by simpa using hn.2) hlt
      simp [this.1, this.2]
    · have := iterations_running env fuel 0 (fun j hj => by simpa using hn.1 j (by omega))
      simp [this.1, this.2]
    · have := iterations_running env fuel 0 (fun j _ => hall _)
      simp [this.1, this.2]

/-- Witness of C2: escape pressed in frame `2`; with `5` iterations allowed both programs
render `3` frames and return `0`. -/
theorem C2_loop_runs_until_escape_or_close_witness :
    (sampleEnv 1 1 0 2).initOk = true ∧ (sampleEnv 1 1 0 2).firstExit 2 ∧
    ((hw1.main (sampleEnv 1 1 0 2) 5).exit = some 0 ∧
      framesRendered (hw1.main (sampleEnv 1 1 0 2) 5).trace = 2 + 1) ∧
    ((hw2.main sampleLib (sampleEnv 1 1 0 2) 5).exit = some 0 ∧
      framesRendered (hw2.main sampleLib (sampleEnv 1 1 0 2) 5).trace = 2 + 1) :=
  have hfirst : (sampleEnv 1 1 0 2).firstExit 2 :=
    ⟨fun j hj => by
      have : j = 0 ∨ j = 1 := by omega
      rcases this with rfl | rfl <;> decide, by decide⟩
  ⟨by decide, hfirst,
   ((C2_loop_runs_until_escape_or_close.1 (sampleEnv 1 1 0 2) 5 (by decide)).2.1 2 hfirst).1
     (by decide),
   ((C2_loop_runs_until_escape_or_close.2 ℚ (List ℚ) sampleLib (sampleEnv 1 1 0 2) 5
     (by decide)).2.1 2 hfirst).1 (by decide)⟩

/-- C3: in `hw1` and in `hw2`, in every run no call deletes a handle that is not live at
that moment. On the normal exit path (`main` returns `0`) the handles created are the vertex
array object, the two shader programs and the vertex buffer object, the deletions are a
rearrangement of the creations (each created handle is deleted exactly once and nothing else
is deleted), no handle stays live, `glfwTerminate` is called exactly once and is the last
call, so that all deletions come before it. On a failure path (`main` returns `-1`) no GL
object is created or deleted and `glfwTerminate` is called once if `glfwInit` had succeeded
and not at all otherwise. -/
theorem C3_create_destroy_paired :
    (∀ (env : Env) (fuel : Nat),
      liveHandles (hw1.main env fuel).trace ≠ none ∧
      ((hw1.main env fuel).exit = some 0 →
        createdHandles (hw1.main env fuel).trace =
          [.vertexArray env.glGenVertexArrays, .program env.LoadShaders0,
           .program env.LoadShaders1, .buffer env.glGenBuffers] ∧
        (deletedHandles (hw1.main env fuel).trace).Perm
          (createdHandles (hw1.main env fuel).trace) ∧
        liveHandles (hw1.main env fuel).trace = some [] ∧
        (hw1.main env fuel).trace.getLast? = some .glfwTerminate ∧
        (hw1.main env fuel).trace.countP Call.isTerminate = 1 ∧
        deletedHandles (hw1.main env fuel).trace.dropLast =
          deletedHandles (hw1.main env fuel).trace) ∧
      ((hw1.main env fuel).exit = some (-1) →
        createdHandles (hw1.main env fuel).trace = [] ∧
        deletedHandles (hw1.main env fuel).trace = [] ∧
        (hw1.main env fuel).trace.countP Call.isTerminate =
          if env.glfwInit = 0 then 0 else 1)) ∧
    (∀ (S M : Type) [Field S] (lib : Lib S M) (env : Env) (fuel : Nat),
      liveHandles (hw2.main lib env fuel).trace ≠ none ∧
      ((hw2.main lib env fuel).exit = some 0 →
        createdHandles (hw2.main lib env fuel).trace =
          [.vertexArray env.glGenVertexArrays, .program env.LoadShaders0,
           .program env.LoadShaders1, .buffer env.glGenBuffers] ∧
        (deletedHandles (hw2.main lib env fuel).trace).Perm
          (createdHandles (hw2.main lib env fuel).trace) ∧
        liveHandles (hw2.main lib env fuel).trace = some [] ∧
        (hw2.main lib env fuel).trace.getLast? = some .glfwTerminate ∧
        (hw2.main lib env fuel).trace.countP Call.isTerminate = 1 ∧
        deletedHandles (hw2.main lib env fuel).trace.dropLast =
          deletedHandles (hw2.main lib env fuel).trace) ∧
      ((hw2.main lib env fuel).exit = some (-1) →
        createdHandles (hw2.main lib env fuel).trace = [] ∧
        deletedHandles (hw2.main lib env fuel).trace = [] ∧
        (hw2.main lib env fuel).trace.countP Call.isTerminate =
          if env.glfwInit = 0 then 0 else 1)) := by
  refine ⟨fun env fuel => ?_, fun S M _ lib env fuel => ?_⟩
  · obtain ⟨h0, h1, _⟩ := exit_cases _ _ _ (hw1_exit_eq env fuel)
    refine ⟨?_, fun hx => ?_, fun hx => ?_⟩
    · by_cases h : env.initOk = true
      · rw [hw1_main_ok env fuel h]
        split
        · rw [(hw1_handles_normal env _).1]; simp
        · rw [hw1_handles_running]; simp
      · rw [(hw1_handles_failing env fuel h).1]; simp
    · obtain ⟨hi, hl⟩ := h0.1 hx
      obtain ⟨a, b, c, d⟩ := hw1_handles_normal env (iterations env fuel 0)
      rw [hw1_main_ok env fuel hi, if_pos hl]
      simp only
      refine ⟨b, ?_, a, ?_, d, ?_⟩
      · rw [b, c]
        exact @List.perm_append_comm _ [Handle.buffer env.glGenBuffers]
          [.vertexArray env.glGenVertexArrays, .program env.LoadShaders0,
            .program env.LoadShaders1]
      · simp [hw1.epilogue, hw1.cleanup]
      · rw [show hw1.epilogue env = (hw1.epilogue env).dropLast ++ [.glfwTerminate] from rfl,
          ← List.append_assoc, List.dropLast_concat]
        simp [deletedHandles, Call.deleted]
    · obtain ⟨_, b, c, d⟩ := hw1_handles_failing env fuel (h1.1 hx)
      exact ⟨b, c, d⟩
  · obtain ⟨h0, h1, _⟩ := exit_cases _ _ _ (hw2_exit_eq lib env fuel)
    refine ⟨?_, fun hx => ?_, fun hx => ?_⟩
    · by_cases h : env.initOk = true
      · rw [hw2_main_ok lib env fuel h]
        split
        · rw [(hw2_handles_normal lib env _).1]; simp
        · rw [hw2_handles_running]; simp
      · rw [(hw2_handles_failing lib env fuel h).1]; simp
    · obtain ⟨hi, hl⟩ := h0.1 hx
      obtain ⟨a, b, c, d⟩ := hw2_handles_normal lib env (iterations env fuel 0)
      rw [hw2_main_ok lib env fuel hi, if_pos hl]
      simp only
      refine ⟨b, ?_, a, ?_, d, ?_⟩
      · rw [b, c]
        refine (@List.perm_append_comm _ [Handle.buffer env.glGenBuffers]
          [.program env.LoadShaders0, .program env.LoadShaders1,
            .vertexArray env.glGenVertexArrays]).trans ?_
        exact List.Perm.append_right [Handle.buffer env.glGenBuffers]
          (@List.perm_append_comm _ [Handle.program env.LoadShaders0,
            .program env.LoadShaders1] [.vertexArray env.glGenVertexArrays])
      · simp [hw2.epilogue, hw2.cleanup]
      · rw [show (hw2.epilogue env : List (Call S M)) =
            (hw2.epilogue env).dropLast ++ [.glfwTerminate] from rfl,
          ← List.append_assoc, List.dropLast_concat]
        simp [deletedHandles, Call.deleted]
    · obtain ⟨_, b, c, d⟩ := hw2_handles_failing lib env fuel (h1.1 hx)
      exact ⟨b, c, d⟩

/-- Witness of C3: a run of each program that returns `0` (escape pressed in frame `2`), with
its created handles, and a run that fails at `glfwCreateWindow`. -/
theorem C3_create_destroy_paired_witness :
    ((hw1.main (sampleEnv 1 1 0 2) 5).exit = some 0 ∧
      (deletedHandles (hw1.main (sampleEnv 1 1 0 2) 5).trace).Perm
        (createdHandles (hw1.main (sampleEnv 1 1 0 2) 5).trace)) ∧
    ((hw2.main sampleLib (sampleEnv 1 1 0 2) 5).exit = some 0 ∧
      (deletedHandles (hw2.main sampleLib (sampleEnv 1 1 0 2) 5).trace).Perm
        (createdHandles (hw2.main sampleLib (sampleEnv 1 1 0 2) 5).trace)) ∧
    ((hw1.main (sampleEnv 1 0 0 2) 5).exit = some (-1) ∧
      createdHandles (hw1.main (sampleEnv 1 0 0 2) 5).trace = []) :=
  ⟨⟨by decide, ((C3_create_destroy_paired.1 (sampleEnv 1 1 0 2) 5).2.1 (by decide)).2.1⟩,
   ⟨by decide, ((C3_create_destroy_paired.2 ℚ (List ℚ) sampleLib (sampleEnv 1 1 0 2) 5).2.1
      (by decide)).2.1⟩,
   ⟨by decide, ((C3_create_destroy_paired.1 (sampleEnv 1 0 0 2) 5).2.2 (by decide)).1⟩⟩

/-- C10: in `hw1` and in `hw2`, two runs whose environments agree on the results of
`glfwInit`, `glfwCreateWindow`, `glewInit` and on the per-frame escape-key and window-close
inputs return the same code and render the same number of frames, whatever `LoadShaders`
and `glGetUniformLocation` (and, in `hw2`, the library functions) return; in particular, when
`LoadShaders` returns `0` twice, the checks pass and some frame ends the loop, the program
still renders at least one frame and returns `0`. -/
theorem C10_control_flow_ignores_shader_loading :
    (∀ (env env' : Env) (fuel : Nat), env.sameInputs env' →
      (hw1.main env fuel).exit = (hw1.main env' fuel).exit ∧
      framesRendered (hw1.main env fuel).trace = framesRendered (hw1.main env' fuel).trace) ∧
    (∀ (S M : Type) [Field S] (lib lib' : Lib S M) (env env' : Env) (fuel : Nat),
      env.sameInputs env' →
      (hw2.main lib env fuel).exit = (hw2.main lib' env' fuel).exit ∧
      framesRendered (hw2.main lib env fuel).trace =
        framesRendered (hw2.main lib' env' fuel).trace) ∧
    (∀ (env : Env) (fuel n : Nat), env.LoadShaders0 = 0 → env.LoadShaders1 = 0 →
      env.initOk = true → env.firstExit n → n < fuel →
      ((hw1.main env fuel).exit = some 0 ∧ 0 < framesRendered (hw1.main env fuel).trace) ∧
      (∀ (S M : Type) [Field S] (lib : Lib S M),
        (hw2.main lib env fuel).exit = some 0 ∧
        0 < framesRendered (hw2.main lib env fuel).trace)) := by
  have key : ∀ (env env' : Env) (fuel : Nat), env.sameInputs env' →
      env.initOk = env'.initOk ∧ iterations env fuel 0 = iterations env' fuel 0 ∧
      leaves env fuel 0 = leaves env' fuel 0 := by
    intro env env' fuel ⟨h1, h2, h3, h4, h5⟩
    have hc : ∀ k, env.continues k = env'.continues k := fun k => by
      simp only [Env.continues, h4 k, h5 k]
    exact ⟨by simp only [Env.initOk, h1, h2, h3], iterations_congr env env' hc fuel 0⟩
  refine ⟨fun env env' fuel h => ?_, fun S M _ lib lib' env env' fuel h => ?_,
    fun env fuel n _ _ hi hn hlt => ?_⟩
  · obtain ⟨a, b, c⟩ := key env env' fuel h
    simp only [hw1_exit_eq, hw1_framesRendered_eq, a, b, c, and_self]
  · obtain ⟨a, b, c⟩ := key env env' fuel h
    simp only [hw2_exit_eq, hw2_framesRendered_eq, a, b, c, and_self]
  · have := iterations_exit env fuel 0 n (by simpa using hn.1) (by simpa using hn.2) hlt
    refine ⟨?_, fun S M _ lib => ?_⟩
    · simp [hw1_exit_eq, hw1_framesRendered_eq, hi, this.1, this.2]
    · simp [hw2_exit_eq, hw2_framesRendered_eq, hi, this.1, this.2]

/-- Witness of C10: the sample run and the run in which both `LoadShaders` calls return `0`
return the same code and render the same number of frames. -/
theorem C10_control_flow_ignores_shader_loading_witness :
    (sampleEnv 1 1 0 2).sameInputs (sampleEnvNoShaders 1 1 0 2) ∧
    ((hw1.main (sampleEnv 1 1 0 2) 5).exit = (hw1.main (sampleEnvNoShaders 1 1 0 2) 5).exit ∧
      framesRendered (hw1.main (sampleEnv 1 1 0 2) 5).trace =
        framesRendered (hw1.main (sampleEnvNoShaders 1 1 0 2) 5).trace) ∧
    ((hw2.main sampleLib (sampleEnv 1 1 0 2) 5).exit =
        (hw2.main sampleLib (sampleEnvNoShaders 1 1 0 2) 5).exit ∧
      framesRendered (hw2.main sampleLib (sampleEnv 1 1 0 2) 5).trace =
        framesRendered (hw2.main sampleLib (sampleEnvNoShaders 1 1 0 2) 5).trace) :=
  have hs : (sampleEnv 1 1 0 2).sameInputs (sampleEnvNoShaders 1 1 0 2) :=
    ⟨rfl, rfl, rfl, fun _ => rfl, fun _ => rfl⟩
  ⟨hs, C10_control_flow_ignores_shader_loading.1 _ _ 5 hs,
    C10_control_flow_ignores_shader_loading.2.1 ℚ (List ℚ) sampleLib sampleLib _ _ 5 hs⟩

/-- C4: in `hw1` and in `hw2`, every run, whatever the inputs and the bound on the loop, is
accepted by the order monitor: `glClear` starts a frame, `glDrawArrays` occurs only between
the clear and the swap of the frame, `glfwSwapBuffers` is followed by exactly one
`glfwPollEvents` before anything else of the frame, and the escape-key and window-close tests
come only after the poll; every started frame is complete; and the run has as many clears and
as many polls as swaps. -/
theorem C4_frame_call_order :
    (∀ (env : Env) (fuel : Nat),
      (∃ ph, frameOrder (hw1.main env fuel).trace = some ph ∧ ph.betweenFrames = true) ∧
      (hw1.main env fuel).trace.countP Call.isClear = framesRendered (hw1.main env fuel).trace ∧
      (hw1.main env fuel).trace.countP Call.isPoll = framesRendered (hw1.main env fuel).trace) ∧
    (∀ (S M : Type) [Field S] (lib : Lib S M) (env : Env) (fuel : Nat),
      (∃ ph, frameOrder (hw2.main lib env fuel).trace = some ph ∧ ph.betweenFrames = true) ∧
      (hw2.main lib env fuel).trace.countP Call.isClear =
        framesRendered (hw2.main lib env fuel).trace ∧
      (hw2.main lib env fuel).trace.countP Call.isPoll =
        framesRendered (hw2.main lib env fuel).trace) :=
  ⟨fun env fuel => ⟨hw1_order env fuel,
      by rw [hw1_framesRendered_eq, hw1_countP_frameCall env fuel _ (Or.inl rfl)],
      by rw [hw1_framesRendered_eq, hw1_countP_frameCall env fuel _ (Or.inr rfl)]⟩,
   fun S M _ lib env fuel => ⟨hw2_order lib env fuel,
      by rw [hw2_framesRendered_eq, hw2_countP_frameCall lib env fuel _ (Or.inl rfl)],
      by rw [hw2_framesRendered_eq, hw2_countP_frameCall lib env fuel _ (Or.inr rfl)]⟩⟩

/-- C6: the configuration of each program, in every run: whenever `glfwInit` succeeds exactly
one window is requested, of width `1024`, height `512` and title "Red and green triangles"
(`hw1`) or "Two rotating triangles" (`hw2`); all window hints are given before that request,
and they are samples `4`, context version major `3`, minor `3`, forward compatibility and the
core profile; whenever the three checks pass, exactly two `LoadShaders` calls are made:
program `0` from `VertexShader.vertexshader` (`hw1`) or `SimpleTransform.vertexshader` (`hw2`)
with `TriangleFragmentShader1.fragmentshader`, program `1` from the same vertex shader with
`TriangleFragmentShader2.fragmentshader`; otherwise no shader file is loaded. -/
theorem C6_window_and_shader_configuration :
    (∀ (env : Env) (fuel : Nat),
      windowsRequested (hw1.main env fuel).trace =
        (if env.glfwInit = 0 then [] else [(1024, 512, "Red and green triangles")]) ∧
      hintsBeforeWindow (hw1.main env fuel).trace =
        (if env.glfwInit = 0 then [] else
          [(.GLFW_SAMPLES, .num 4), (.GLFW_CONTEXT_VERSION_MAJOR, .num 3),
           (.GLFW_CONTEXT_VERSION_MINOR, .num 3), (.GLFW_OPENGL_FORWARD_COMPAT, .sym .GL_TRUE),
           (.GLFW_OPENGL_PROFILE, .sym .GLFW_OPENGL_CORE_PROFILE)]) ∧
      hintsGiven (hw1.main env fuel).trace = hintsBeforeWindow (hw1.main env fuel).trace ∧
      shadersLoaded (hw1.main env fuel).trace =
        (if env.initOk = true then
          [("VertexShader.vertexshader", "TriangleFragmentShader1.fragmentshader",
              env.LoadShaders0),
           ("VertexShader.vertexshader", "TriangleFragmentShader2.fragmentshader",
              env.LoadShaders1)]
        else [])) ∧
    (∀ (S M : Type) [Field S] (lib : Lib S M) (env : Env) (fuel : Nat),
      windowsRequested (hw2.main lib env fuel).trace =
        (if env.glfwInit = 0 then [] else [(1024, 512, "Two rotating triangles")]) ∧
      hintsBeforeWindow (hw2.main lib env fuel).trace =
        (if env.glfwInit = 0 then [] else
          [(.GLFW_SAMPLES, .num 4), (.GLFW_CONTEXT_VERSION_MAJOR, .num 3),
           (.GLFW_CONTEXT_VERSION_MINOR, .num 3), (.GLFW_OPENGL_FORWARD_COMPAT, .sym .GL_TRUE),
           (.GLFW_OPENGL_PROFILE, .sym .GLFW_OPENGL_CORE_PROFILE)]) ∧
      hintsGiven (hw2.main lib env fuel).trace =
        hintsBeforeWindow (hw2.main lib env fuel).trace ∧
      shadersLoaded (hw2.main lib env fuel).trace =
        (if env.initOk = true then
          [("SimpleTransform.vertexshader", "TriangleFragmentShader1.fragmentshader",
              env.LoadShaders0),
           ("SimpleTransform.vertexshader", "TriangleFragmentShader2.fragmentshader",
              env.LoadShaders1)]
        else [])) :=
  ⟨hw1_configuration, fun _ _ _ lib env fuel => hw2_configuration lib env fuel⟩

/-- C7: in `hw1` and in `hw2`, in every run the checks are performed in the order `glfwInit`,
`glfwCreateWindow`, `glewInit` and the sequence stops at the first one that fails; when a
check that is reached fails, the calls after it are a nonempty sequence made only of the
message to `stderr`, `getchar` and `glfwTerminate` (so no window hint, GL, shader, buffer or
draw call), and the loop body is not executed: no frame is presented and `glClear` is never
called. -/
theorem C7_checks_sequential_short_circuit :
    (∀ (env : Env) (fuel : Nat),
      checksAttempted (hw1.main env fuel).trace =
        (if env.glfwInit = 0 then [(.glfwInit, false)]
         else if env.glfwCreateWindow = NULL then
           [(.glfwInit, true), (.glfwCreateWindow, false)]
         else [(.glfwInit, true), (.glfwCreateWindow, true),
               (.glewInit, decide (env.glewInit = GLEW_OK))]) ∧
      (env.reachedCheckFails →
        (afterFailure (hw1.main env fuel).trace).all Call.isFailureReport = true ∧
        afterFailure (hw1.main env fuel).trace ≠ [] ∧
        framesRendered (hw1.main env fuel).trace = 0 ∧
        (hw1.main env fuel).trace.countP Call.isClear = 0)) ∧
    (∀ (S M : Type) [Field S] (lib : Lib S M) (env : Env) (fuel : Nat),
      checksAttempted (hw2.main lib env fuel).trace =
        (if env.glfwInit = 0 then [(.glfwInit, false)]
         else if env.glfwCreateWindow = NULL then
           [(.glfwInit, true), (.glfwCreateWindow, false)]
         else [(.glfwInit, true), (.glfwCreateWindow, true),
               (.glewInit, decide (env.glewInit = GLEW_OK))]) ∧
      (env.reachedCheckFails →
        (afterFailure (hw2.main lib env fuel).trace).all Call.isFailureReport = true ∧
        afterFailure (hw2.main lib env fuel).trace ≠ [] ∧
        framesRendered (hw2.main lib env fuel).trace = 0 ∧
        (hw2.main lib env fuel).trace.countP Call.isClear = 0)) := by
  refine ⟨fun env fuel => ⟨(hw1_checks env fuel).1, fun hf => ?_⟩,
    fun _ _ _ lib env fuel => ⟨(hw2_checks lib env fuel).1, fun hf => ?_⟩⟩
  · have h := (env.not_reachedCheckFails).1 hf
    obtain ⟨a, b⟩ := (hw1_checks env fuel).2 h
    refine ⟨a, b, ?_, ?_⟩
    · rw [hw1_framesRendered_eq, if_neg h]
    · rw [hw1_countP_frameCall env fuel _ (Or.inl rfl), if_neg h]
  · have h := (env.not_reachedCheckFails).1 hf
    obtain ⟨a, b⟩ := (hw2_checks lib env fuel).2 h
    refine ⟨a, b, ?_, ?_⟩
    · rw [hw2_framesRendered_eq, if_neg h]
    · rw [hw2_countP_frameCall lib env fuel _ (Or.inl rfl), if_neg h]

/-- Witness of C7: `glewInit` fails (returns `1`); nothing but the failure report follows. -/
theorem C7_checks_sequential_short_circuit_witness :
    (sampleEnv 1 1 1 2).reachedCheckFails ∧
    ((afterFailure (hw1.main (sampleEnv 1 1 1 2) 5).trace).all Call.isFailureReport = true ∧
      afterFailure (hw1.main (sampleEnv 1 1 1 2) 5).trace ≠ [] ∧
      framesRendered (hw1.main (sampleEnv 1 1 1 2) 5).trace = 0 ∧
      (hw1.main (sampleEnv 1 1 1 2) 5).trace.countP Call.isClear = 0) ∧
    ((afterFailure (hw2.main sampleLib (sampleEnv 1 1 1 2) 5).trace).all
        Call.isFailureReport = true ∧
      afterFailure (hw2.main sampleLib (sampleEnv 1 1 1 2) 5).trace ≠ [] ∧
      framesRendered (hw2.main sampleLib (sampleEnv 1 1 1 2) 5).trace = 0 ∧
      (hw2.main sampleLib (sampleEnv 1 1 1 2) 5).trace.countP Call.isClear = 0) :=
  have hf : (sampleEnv 1 1 1 2).reachedCheckFails := Or.inr (Or.inr (by decide))
  ⟨hf, (C7_checks_sequential_short_circuit.1 (sampleEnv 1 1 1 2) 5).2 hf,
    (C7_checks_sequential_short_circuit.2 ℚ (List ℚ) sampleLib (sampleEnv 1 1 1 2) 5).2 hf⟩

/-- C8: `hw1` is static: in every run each frame, from `glClear` to `glfwPollEvents`, is the
same list of calls with the same arguments, and no matrix is ever sent. `hw2` is animated:
frame `k` of every run is the loop body (after its `Sleep`) with the matrix
`Projection * lookAt((cos a_k, 1, sin a_k), (0,0,0), (0,1,0)) * Identity`, so two frames
differ only in that matrix; in frame `k` that matrix is sent exactly twice, first with
program `programIDs[0]` in use to the location obtained for `MVP` in that program, then with
program `programIDs[1]` in use to the location obtained for `MVP` in that one, with the same
value both times; a location in the range of `GLint` is passed on unchanged; and `a_0 = 0`,
`a_(k+1) = a_k + 0.02`, that is `a_k = 0.02 * k` in exact arithmetic. -/
theorem C8_static_and_rotating_frames :
    (∀ (env : Env) (fuel : Nat),
      frameCalls (hw1.main env fuel).trace =
        List.replicate (framesRendered (hw1.main env fuel).trace)
          (hw1.frame env.glfwCreateWindow [env.LoadShaders0, env.LoadShaders1]
            env.glGenBuffers) ∧
      sendsPerFrame (hw1.main env fuel).trace =
        List.replicate (framesRendered (hw1.main env fuel).trace) []) ∧
    (∀ (S M : Type) [Field S] (lib : Lib S M) (env : Env) (fuel : Nat),
      frameCalls (hw2.main lib env fuel).trace =
        ((List.range (framesRendered (hw2.main lib env fuel).trace)).map fun k =>
          (hw2.frameWith env.glfwCreateWindow [env.LoadShaders0, env.LoadShaders1]
            [toGLuint env.glGetUniformLocation0, toGLuint env.glGetUniformLocation1]
            env.glGenBuffers (hw2.specMVP lib k)).tail) ∧
      sendsPerFrame (hw2.main lib env fuel).trace =
        ((List.range (framesRendered (hw2.main lib env fuel).trace)).map fun k =>
          ([ ⟨some env.LoadShaders0, toGLint (toGLuint env.glGetUniformLocation0), 1,
                hw2.specMVP lib k⟩,
             ⟨some env.LoadShaders1, toGLint (toGLuint env.glGetUniformLocation1), 1,
                hw2.specMVP lib k⟩ ] : List (UniformSend M))) ∧
      locationsObtained (hw2.main lib env fuel).trace =
        (if env.initOk = true then
          [(env.LoadShaders0, "MVP", env.glGetUniformLocation0),
           (env.LoadShaders1, "MVP", env.glGetUniformLocation1)]
        else [])) ∧
    (∀ (x : Int), -(2 ^ 31) ≤ x → x < 2 ^ 31 → toGLint (toGLuint x) = x) ∧
    (∀ (S M : Type) [Field S] (lib : Lib S M) (w : Nat) (p q : List Nat) (v k : Nat),
      matricesSent (hw2.frameWith w p q v (hw2.specMVP lib k) : List (Call S M)) =
        [hw2.specMVP lib k, hw2.specMVP lib k]) ∧
    (∀ (S : Type) [Field S] (k : Nat),
      (hw2.specAngle 0 : S) = 0 ∧
      (hw2.specAngle (k + 1) : S) = hw2.specAngle k + 0.02 ∧
      (hw2.specAngle k : S) = 0.02 * (k : S)) :=
  ⟨fun env fuel => ⟨hw1_frameCalls env fuel, hw1_sendsPerFrame env fuel⟩,
    fun _ _ _ lib env fuel =>
      ⟨hw2_frameCalls lib env fuel, hw2_sendsPerFrame lib env fuel,
        hw2_locationsObtained lib env fuel⟩,
    toGLint_toGLuint,
    fun _ _ _ _ _ _ _ _ _ => rfl, fun _ _ k => ⟨rfl, rfl, hw2_specAngle_eq k⟩⟩

/-- Witness of C8: the location `-1`, which `glGetUniformLocation` returns for a uniform that
does not exist, is in the range of `GLint` and comes back unchanged from the `GLuint` array
`MatrixIDs`; and the programs in use and the locations of the two sends of the single frame
of a sample run of `hw2`. -/
theorem C8_static_and_rotating_frames_witness :
    (-(2 ^ 31) ≤ (-1 : Int) ∧ (-1 : Int) < 2 ^ 31 ∧ toGLint (toGLuint (-1)) = -1) ∧
    (sendsPerFrame (hw2.main sampleLib (sampleEnv 1 1 0 0) 5).trace).map
        (fun f => f.map fun u => (u.program, u.location)) =
      [[(some 2, 0), (some 3, 1)]] :=
  ⟨⟨by decide, by decide,
      C8_static_and_rotating_frames.2.2.1 (-1) (by decide) (by decide)⟩,
    by
      rw [(C8_static_and_rotating_frames.2.1 ℚ (List ℚ) sampleLib (sampleEnv 1 1 0 0) 5).2.1]
      decide⟩

/-- C9: for every real camera angle `a`, the camera position `(cos a, 1, sin a)` of `hw2` is
at height `1` over the unit circle around the y axis, at distance `sqrt 2` from the target
`(0, 0, 0)`; the cross product of the direction eye - target with the up vector `(0, 1, 0)`
is `(-sin a, 0, cos a)`, of length `1`; hence the two vectors `glm::lookAt` normalizes, the
direction target - eye and its cross product with up, are never zero. -/
theorem C9_camera_never_degenerate (a : ℝ) :
    (hw2.cameraEye Real.cos Real.sin a).y = 1 ∧
    (hw2.cameraEye Real.cos Real.sin a).x ^ 2 + (hw2.cameraEye Real.cos Real.sin a).z ^ 2 = 1 ∧
    Real.sqrt (Vec3.dot (Vec3.sub (hw2.cameraEye Real.cos Real.sin a) ⟨0, 0, 0⟩)
      (Vec3.sub (hw2.cameraEye Real.cos Real.sin a) ⟨0, 0, 0⟩)) = Real.sqrt 2 ∧
    Vec3.cross (Vec3.sub (hw2.cameraEye Real.cos Real.sin a) ⟨0, 0, 0⟩) ⟨0, 1, 0⟩ =
      ⟨-Real.sin a, 0, Real.cos a⟩ ∧
    Real.sqrt (Vec3.dot
      (Vec3.cross (Vec3.sub (hw2.cameraEye Real.cos Real.sin a) ⟨0, 0, 0⟩) ⟨0, 1, 0⟩)
      (Vec3.cross (Vec3.sub (hw2.cameraEye Real.cos Real.sin a) ⟨0, 0, 0⟩) ⟨0, 1, 0⟩)) = 1 ∧
    Vec3.dot (Vec3.sub ⟨0, 0, 0⟩ (hw2.cameraEye Real.cos Real.sin a))
      (Vec3.sub ⟨0, 0, 0⟩ (hw2.cameraEye Real.cos Real.sin a)) ≠ 0 ∧
    Vec3.dot
      (Vec3.cross (Vec3.sub ⟨0, 0, 0⟩ (hw2.cameraEye Real.cos Real.sin a)) ⟨0, 1, 0⟩)
      (Vec3.cross (Vec3.sub ⟨0, 0, 0⟩ (hw2.cameraEye Real.cos Real.sin a)) ⟨0, 1, 0⟩) ≠ 0 := by
  have hcs : Real.cos a ^ 2 + Real.sin a ^ 2 = 1 := Real.cos_sq_add_sin_sq a
  have hd : Vec3.dot (Vec3.sub (hw2.cameraEye Real.cos Real.sin a) ⟨0, 0, 0⟩)
      (Vec3.sub (hw2.cameraEye Real.cos Real.sin a) ⟨0, 0, 0⟩) = 2 := by
    simp only [Vec3.dot, Vec3.sub, hw2.cameraEye]
    nlinarith [hcs]
  have hc : Vec3.dot
      (Vec3.cross (Vec3.sub (hw2.cameraEye Real.cos Real.sin a) ⟨0, 0, 0⟩) ⟨0, 1, 0⟩)
      (Vec3.cross (Vec3.sub (hw2.cameraEye Real.cos Real.sin a) ⟨0, 0, 0⟩) ⟨0, 1, 0⟩) = 1 := by
    simp only [Vec3.dot, Vec3.cross, Vec3.sub, hw2.cameraEye]
    nlinarith [hcs]
  refine ⟨rfl, ?_, ?_, ?_, ?_, ?_, ?_⟩
  · simp only [hw2.cameraEye]
    exact hcs
  · rw [hd]
  · simp [Vec3.cross, Vec3.sub, hw2.cameraEye]
  · rw [hc, Real.sqrt_one]
  · have : Vec3.dot (Vec3.sub ⟨0, 0, 0⟩ (hw2.cameraEye Real.cos Real.sin a))
        (Vec3.sub ⟨0, 0, 0⟩ (hw2.cameraEye Real.cos Real.sin a)) = 2 := by
      simp only [Vec3.dot, Vec3.sub, hw2.cameraEye]
      nlinarith [hcs]
    rw [this]
    norm_num
  · have : Vec3.dot
        (Vec3.cross (Vec3.sub ⟨0, 0, 0⟩ (hw2.cameraEye Real.cos Real.sin a)) ⟨0, 1, 0⟩)
        (Vec3.cross (Vec3.sub ⟨0, 0, 0⟩ (hw2.cameraEye Real.cos Real.sin a)) ⟨0, 1, 0⟩)
        = 1 := by
      simp only [Vec3.dot, Vec3.cross, Vec3.sub, hw2.cameraEye]
      nlinarith [hcs]
    rw [this]
    norm_num

end Triangles
